import Mathlib

/-!
# XInputLogger: a shallow embedding of `src/dllmain.cpp`

The proxy DLL keeps its state in process-wide globals.  The embedding collects
them in one record, `State`, and turns every C++ function into a Lean function
that takes the state and returns the new one (together with the C++ return
value when there is one).  A function that can end the process returns an
`Except Fault`: `Except.error` says the process died inside the call.

Everything the DLL obtains from outside (the Win32 API, the C runtime, the real
`xinput1_3.dll`) is a field of `Env`.  Calls made through a saved function
pointer, protection changes and stores into foreign memory are appended to
`State.trace`, so that "the original is called once with these arguments" is a
statement about the trace.  What an outside call returns may depend on
everything that happened before it, hence the `List Event` argument of those
fields.

Representation choices:
* a pointer or handle is a `Nat`, `0` is `NULL`;
* a `char*` string is the list of its characters before the terminator, a
  `std::string` is the list of all its characters, a `wchar_t*` string is the
  list of its code units;
* `WriteLog` takes the message already formatted and keeps the lines handed
  to the console and to the file; a message that does not fit the 4096-byte
  buffer of line 97 makes `vsprintf_s` call the invalid-parameter handler of
  the C runtime, which ends the process (`Fault.invalidParameter`);
* a store into memory the DLL does not own lands or raises an access
  violation as the environment says (`Env.storeLands`); a store that lands is
  recorded as an event, one that does not ends the process
  (`Fault.accessViolation`);
* a `char[MAX_PATH]` array holds at most `MAX_PATH - 1` characters, which is
  all `%s` reads from it.
-/

namespace XInputLogger

/-! ## Basic types and constants -/

/-- Pointers, module handles and function addresses; `0` is `NULL`. -/
abbrev Addr := Nat

/-- A 32-bit unsigned Win32 value; no arithmetic is done on it in this file. -/
abbrev DWORD := Nat

/-- Characters of a NUL-terminated `char` string, terminator excluded. -/
abbrev CString := List Char

/-- Contents of a `std::string`: all of its characters, NUL included. -/
abbrev StdString := List Char

/-- Code units of a NUL-terminated `wchar_t` string, terminator excluded. -/
abbrev WString := List Nat

/-- The two ways a call can end the process. -/
inductive Fault where
  /-- A secure C runtime function was given a buffer too small for its output
  and called the invalid-parameter handler, which terminates the process. -/
  | invalidParameter
  /-- A store to `addr` hit memory that is not writable. -/
  | accessViolation (addr : Addr)
  deriving DecidableEq, Repr

deriving instance DecidableEq for Except

/-- The NUL character. -/
def NUL : Char := Char.ofNat 0

/-- Value of `std::string::c_str()` read as a C string: it stops at the first NUL. -/
def c_str (s : StdString) : CString := s.takeWhile (fun c => c != NUL)

/-- Win32 status code returned by a proxy whose target is missing. -/
def ERROR_DEVICE_NOT_CONNECTED : DWORD := 1167

/-- Capacity of `messageBuffer` (line 55). -/
def MAX_BUFFER_SIZE : Nat := 1000

/-- Size of the array `buffer` in `WriteLog` (line 97). -/
def LOG_BUFFER_SIZE : Nat := 4096

/-- Win32 limit on path lengths, terminator included. -/
def MAX_PATH : Nat := 260

/-- What `%s` and the string functions read from a NUL-terminated `char[n]`
array: at most `n - 1` characters. -/
def charArray (n : Nat) (s : CString) : CString := s.take (n - 1)

/-- Win32 page protection constant. -/
def PAGE_READWRITE : DWORD := 4

/-- Global `config` (lines 13-23). `filterPattern` and `logFilePath` are only
ever assigned from C strings (`LoadConfig`), so they hold no NUL and
`c_str()` returns their characters unchanged. -/
structure Config where
  logToFile : Bool
  logToConsole : Bool
  showTimestamps : Bool
  captureOutputDebugString : Bool
  captureETW : Bool
  captureD3D : Bool
  filterMessages : Bool
  logFilePath : CString
  filterPattern : CString
  deriving DecidableEq, Repr

/-- What the DLL does to the world outside its own globals. -/
inductive Event where
  /-- A call through one of the five saved XInput pointers. -/
  | xinput (target : Addr) (args : List Nat)
  /-- A call through the saved `OutputDebugStringA` pointer. -/
  | debugStringA (target : Addr) (text : CString)
  /-- A call through the saved `OutputDebugStringW` pointer. -/
  | debugStringW (target : Addr) (text : WString)
  /-- A request `VirtualProtect(addr, size, newProtect, &old)`. -/
  | protect (addr : Addr) (size : Nat) (newProtect : DWORD)
  /-- A store `*addr = value` into memory the DLL does not own. -/
  | store (addr : Addr) (value : Addr)
  deriving DecidableEq, Repr

/-- The outside world as the DLL sees it. -/
structure Env where
  /-- Text `strftime` produces in `GetTimestamp`. -/
  clock : CString
  /-- `xinput_logger.cfg`: `none` when `fopen_s` fails, otherwise the
  key/value pairs of the lines `sscanf_s` splits successfully, in file order. -/
  configFile : Option (List (CString × CString))
  /-- `GetCurrentProcessId()`. -/
  currentProcessId : DWORD
  /-- Whether `OpenProcess` returns a handle. -/
  openProcess : Bool
  /-- `GetModuleFileNameExA(hProcess, NULL, ..)`: the image path, `none` when it returns 0. -/
  imagePath : Option CString
  /-- `EnumProcessModules`: `none` when it fails, otherwise one entry per
  module, holding the name `GetModuleFileNameExA` gives for it (`none` when
  that call returns 0). -/
  modules : Option (List (Option CString))
  /-- Whether `freopen_s` leaves `consoleOutput` non-NULL. -/
  freopenOk : Bool
  /-- Whether `fileOutput.open(path)` opens the file. -/
  fileOpenOk : CString → Bool
  /-- `GetSystemDirectoryA`. -/
  systemDirectory : CString
  /-- `LoadLibraryA(path)`. -/
  LoadLibraryA : CString → Addr
  /-- `GetModuleHandleA(name)`. -/
  GetModuleHandleA : CString → Addr
  /-- `GetProcAddress(module, name)`. -/
  GetProcAddress : Addr → CString → Addr
  /-- Address of the DLL's own `HookedOutputDebugStringA`. -/
  addrHookedOutputDebugStringA : Addr
  /-- Address of the DLL's own `HookedOutputDebugStringW`. -/
  addrHookedOutputDebugStringW : Addr
  /-- `sizeof(FARPROC)`. -/
  sizeofFARPROC : Nat
  /-- Status code returned by the function at `target` when called with
  `args` after the events so far. -/
  xinputResult : List Event → Addr → List Nat → DWORD
  /-- `VirtualProtect(addr, size, newProtect, _)` after the events so far:
  `some old` when it succeeds and reports the previous protection, `none`
  when it fails. -/
  virtualProtect : List Event → Addr → Nat → DWORD → Option DWORD
  /-- Whether a store of a pointer to `addr`, issued after the events so far,
  lands (`true`) or raises an access violation (`false`). -/
  storeLands : List Event → Addr → Bool
  /-- Content of a local variable read before anything was written to it. -/
  indeterminate : List Event → DWORD
  /-- `WideCharToMultiByte(CP_UTF8, 0, w, -1, NULL, 0, NULL, NULL)`: the
  number of bytes the conversion needs, `0` when it fails. -/
  wideSize : WString → Nat
  /-- Bytes `WideCharToMultiByte(CP_UTF8, 0, w, -1, buf, cb, NULL, NULL)`
  writes to a buffer of `cb` bytes. -/
  wideBytes : WString → Nat → List Char

/-- One poll's worth of `GetAsyncKeyState` results, in the order `CheckHotkeys`
asks for them. Each is the 16-bit value returned, read as a bit pattern. -/
structure KeyReadings where
  /-- `GetAsyncKeyState(VK_MENU)` in the Alt+L test (line 205). -/
  menuL : Nat
  /-- `GetAsyncKeyState('L')` (line 205). -/
  keyL : Nat
  /-- `GetAsyncKeyState(VK_MENU)` in the Alt+I test (line 217). -/
  menuI : Nat
  /-- `GetAsyncKeyState('I')` (line 217). -/
  keyI : Nat
  deriving DecidableEq, Repr

/-- The globals of `dllmain.cpp`, the four function-local statics of
`CheckHotkeys`, the text written so far and the trace of outside effects. -/
structure State where
  config : Config
  originalDLL : Addr
  OriginalXInputGetState : Addr
  OriginalXInputSetState : Addr
  OriginalXInputGetCapabilities : Addr
  OriginalXInputGetBatteryInformation : Addr
  OriginalXInputGetKeystroke : Addr
  /-- `consoleOutput != NULL`. -/
  consoleOutput : Bool
  /-- `fileOutput.is_open()`. -/
  fileOutputOpen : Bool
  isLoggingEnabled : Bool
  processName : CString
  processId : DWORD
  messageBuffer : List StdString
  OriginalOutputDebugStringA : Addr
  OriginalOutputDebugStringW : Addr
  /-- `static bool keyPressed` of line 206 (Alt+L held branch). -/
  keyPressed206 : Bool
  /-- `static bool keyPressed` of line 212 (Alt+L released branch). -/
  keyPressed212 : Bool
  /-- `static bool keyPressed` of line 218 (Alt+I held branch). -/
  keyPressed218 : Bool
  /-- `static bool keyPressed` of line 224 (Alt+I released branch). -/
  keyPressed224 : Bool
  /-- Lines written to the console so far. -/
  consoleText : List StdString
  /-- Lines written to the log file so far. -/
  fileText : List StdString
  /-- Outside effects so far, oldest first. -/
  trace : List Event
  deriving DecidableEq, Repr

/-- The state at load time, before `DllMain` runs: the static initialisers of
lines 23-67 and 206-224. -/
def State.start : State where
  config :=
    { logToFile := false, logToConsole := false, showTimestamps := false,
      captureOutputDebugString := false, captureETW := false, captureD3D := false,
      filterMessages := false, logFilePath := [], filterPattern := [] }
  originalDLL := 0
  OriginalXInputGetState := 0
  OriginalXInputSetState := 0
  OriginalXInputGetCapabilities := 0
  OriginalXInputGetBatteryInformation := 0
  OriginalXInputGetKeystroke := 0
  consoleOutput := false
  fileOutputOpen := false
  isLoggingEnabled := true
  processName := "Unknown".toList
  processId := 0
  messageBuffer := []
  OriginalOutputDebugStringA := 0
  OriginalOutputDebugStringW := 0
  keyPressed206 := false
  keyPressed212 := false
  keyPressed218 := false
  keyPressed224 := false
  consoleText := []
  fileText := []
  trace := []

/-! ## C library functions used by the source -/

/-- `strstr(haystack, needle)`: offset of the first occurrence of `needle`,
`none` for a NULL result. -/
def strstr : CString → CString → Option Nat
  | [], needle => if needle.isEmpty then some 0 else none
  | c :: cs, needle =>
    if needle.isPrefixOf (c :: cs) then some 0
    else (strstr cs needle).map (fun i => i + 1)

/-- `s.find(pattern)` of `std::string`: position of the first occurrence,
`none` for `npos`. -/
def StdString.find : StdString → StdString → Option Nat
  | [], pattern => if pattern.isEmpty then some 0 else none
  | c :: cs, pattern =>
    if pattern.isPrefixOf (c :: cs) then some 0
    else (StdString.find cs pattern).map (fun i => i + 1)

/-- `WideCharToMultiByte(CP_UTF8, 0, w, -1, buf, cb, NULL, NULL)` on a buffer
holding `buf`: with `cb = 0` it only reports the size needed and leaves the
buffer alone, otherwise the bytes written replace the front of the buffer.
Returns the call's result and the buffer afterwards. -/
def WideCharToMultiByte (env : Env) (w : WString) (buf : StdString) (cb : Nat) :
    Nat × StdString :=
  if cb = 0 then (env.wideSize w, buf)
  else
    let out := (env.wideBytes w cb).take cb
    (out.length, out ++ buf.drop out.length)

/-! ## Logging (lines 69-143) -/

/-- `GetTimestamp` (lines 70-79). -/
def GetTimestamp (env : Env) (s : State) : StdString :=
  if !s.config.showTimestamps then [] else env.clock

/-- Whether a `WriteLog` call in state `s` reaches the `vsprintf_s` of line 98
(the tests of lines 83 and 96). -/
def fileSink (s : State) : Bool :=
  s.isLoggingEnabled && (s.config.logToFile && s.fileOutputOpen)

/-- `WriteLog` (lines 82-104); `text` is the formatted message. The console
gets the message whatever its length (`vfprintf`). For the file the message is
first formatted into `char buffer[4096]` by `vsprintf_s`: when the message and
its terminator do not fit, the invalid-parameter handler ends the process. -/
def WriteLog (env : Env) (text : StdString) (s : State) : Except Fault State :=
  if !s.isLoggingEnabled then .ok s
  else
    let timestamp := GetTimestamp env s
    let s1 :=
      if s.config.logToConsole && s.consoleOutput then
        { s with consoleText := s.consoleText ++ [timestamp ++ text] }
      else s
    if s1.config.logToFile && s1.fileOutputOpen then
      if text.length < LOG_BUFFER_SIZE then
        .ok { s1 with fileText := s1.fileText ++ [timestamp ++ text] }
      else .error Fault.invalidParameter
    else .ok s1

/-- Several `WriteLog` calls in a row. -/
def WriteLogs (env : Env) (texts : List StdString) (s : State) : Except Fault State :=
  texts.foldlM (fun st t => WriteLog env t st) s

/-- `ToggleLogging` (lines 107-112). -/
def ToggleLogging (env : Env) (s : State) : Except Fault State :=
  let s1 := { s with isLoggingEnabled := !s.isLoggingEnabled }
  if s1.isLoggingEnabled then WriteLog env "Logging enabled\n".toList s1 else .ok s1

/-- Decimal digits of `n`, most significant first, at most `fuel` of them. -/
def digitsOf : Nat → Nat → List Char
  | 0, _ => []
  | fuel + 1, n =>
    if n < 10 then [Nat.digitChar n]
    else digitsOf fuel (n / 10) ++ [Nat.digitChar (n % 10)]

/-- What `%d` prints for a 32-bit argument: the value read as a signed `int`. -/
def formatD (v : Nat) : StdString :=
  if v % 2 ^ 32 < 2 ^ 31 then digitsOf 10 (v % 2 ^ 32)
  else '-' :: digitsOf 10 (2 ^ 32 - v % 2 ^ 32)

/-- What `%zu` prints for a `size_t` of 64 bits. -/
def formatZu (v : Nat) : StdString := digitsOf 20 (v % 2 ^ 64)

/-- The messages `ShowProcessInfo` hands to `WriteLog`, in order
(lines 116-142). `processName` and `modName` are `char[MAX_PATH]` arrays. -/
def processInfoLines (env : Env) (s : State) : List StdString :=
  [ "\n=== Process Information ===\n".toList,
    "Process Name: ".toList ++ charArray MAX_PATH s.processName ++ "\n".toList,
    "Process ID: ".toList ++ formatD s.processId ++ "\n".toList ]
  ++ (if env.openProcess then
        match env.modules with
        | some mods =>
          ["Loaded Modules:\n".toList]
          ++ (mods.take 20).filterMap
               (fun m => m.map (fun name =>
                 "  ".toList ++ charArray MAX_PATH name ++ "\n".toList))
          ++ (if mods.length > 20 then
                ["  ... and ".toList ++ formatD (mods.length - 20)
                  ++ " more modules\n".toList]
              else [])
        | none => []
      else [])
  ++ ["===========================\n\n".toList]

/-- `ShowProcessInfo` (lines 115-143). None of its `WriteLog` calls changes
what the later messages are built from, so the messages are computed first. -/
def ShowProcessInfo (env : Env) (s : State) : Except Fault State :=
  WriteLogs env (processInfoLines env s) s

/-! ## The two diagnostic observers (lines 145-200) -/

/-- The buffer update of lines 158-161 and 189-192: when the buffer holds
`MAX_BUFFER_SIZE` entries or more the first one is erased, then the entry is
pushed at the back. -/
def bufferAdd (buf : List StdString) (entry : StdString) : List StdString :=
  (if buf.length ≥ MAX_BUFFER_SIZE then buf.tail else buf) ++ [entry]

/-- The body of `if (shouldLog)` (lines 155-161 and 186-192): the message is
logged, then the entry goes into the buffer. -/
def logAndStore (env : Env) (text entry : StdString) (s : State) : Except Fault State := do
  let s2 ← WriteLog env text s
  pure { s2 with messageBuffer := bufferAdd s2.messageBuffer entry }

/-- The capture step of `HookedOutputDebugStringA` (lines 147-163). -/
def captureA (env : Env) (lpOutputString : CString) (s : State) : Except Fault State :=
  if s.config.captureOutputDebugString then
    let shouldLog :=
      if s.config.filterMessages && !s.config.filterPattern.isEmpty then
        (strstr lpOutputString s.config.filterPattern).isSome
      else true
    if shouldLog then
      logAndStore env ("[DEBUG] ".toList ++ lpOutputString) lpOutputString s
    else pure s
  else pure s

/-- The forwarding step of `HookedOutputDebugStringA` (lines 165-168). -/
def forwardA (lpOutputString : CString) (s : State) : State :=
  if s.OriginalOutputDebugStringA ≠ 0 then
    { s with trace :=
        s.trace ++ [Event.debugStringA s.OriginalOutputDebugStringA lpOutputString] }
  else s

/-- `HookedOutputDebugStringA` (lines 146-169): capture, then forward. -/
def HookedOutputDebugStringA (env : Env) (lpOutputString : CString) (s : State) :
    Except Fault State := do
  let s1 ← captureA env lpOutputString s
  pure (forwardA lpOutputString s1)

/-- The local `strTo` of `HookedOutputDebugStringW` after lines 175-177: a
string of `size_needed` NULs overwritten by the conversion. -/
def strTo (env : Env) (lpOutputString : WString) : StdString :=
  let size_needed := (WideCharToMultiByte env lpOutputString [] 0).1
  (WideCharToMultiByte env lpOutputString (List.replicate size_needed NUL) size_needed).2

/-- The capture step of `HookedOutputDebugStringW` (lines 173-194). -/
def captureW (env : Env) (lpOutputString : WString) (s : State) : Except Fault State :=
  if s.config.captureOutputDebugString then
    let text := strTo env lpOutputString
    let shouldLog :=
      if s.config.filterMessages && !s.config.filterPattern.isEmpty then
        (StdString.find text s.config.filterPattern).isSome
      else true
    if shouldLog then
      logAndStore env ("[DEBUG-W] ".toList ++ c_str text) text s
    else pure s
  else pure s

/-- The forwarding step of `HookedOutputDebugStringW` (lines 196-199). -/
def forwardW (lpOutputString : WString) (s : State) : State :=
  if s.OriginalOutputDebugStringW ≠ 0 then
    { s with trace :=
        s.trace ++ [Event.debugStringW s.OriginalOutputDebugStringW lpOutputString] }
  else s

/-- `HookedOutputDebugStringW` (lines 172-200): capture, then forward. -/
def HookedOutputDebugStringW (env : Env) (lpOutputString : WString) (s : State) :
    Except Fault State := do
  let s1 ← captureW env lpOutputString s
  pure (forwardW lpOutputString s1)

/-! ## Hotkeys (lines 202-227) -/

/-- The test `GetAsyncKeyState(..) & 0x8000`. -/
def keyDown (reading : Nat) : Bool := Nat.land reading 0x8000 != 0

/-- Whether a poll reads the Alt+L combination as pressed (condition of line 205). -/
def KeyReadings.altL (k : KeyReadings) : Bool := keyDown k.menuL && keyDown k.keyL

/-- Whether a poll reads the Alt+I combination as pressed (condition of line 217). -/
def KeyReadings.altI (k : KeyReadings) : Bool := keyDown k.menuI && keyDown k.keyI

/-- The Alt+L block of `CheckHotkeys` (lines 204-214). The `keyPressed`
cleared at line 213 is a static of the `else` block, not the one declared at
line 206 and tested at line 207. -/
def pollAltL (env : Env) (k : KeyReadings) (s : State) : Except Fault State :=
  if k.altL then
    if !s.keyPressed206 then do
      let t ← ToggleLogging env s
      pure { t with keyPressed206 := true }
    else pure s
  else pure { s with keyPressed212 := false }

/-- The Alt+I block of `CheckHotkeys` (lines 216-226), built like the Alt+L
block. -/
def pollAltI (env : Env) (k : KeyReadings) (s : State) : Except Fault State :=
  if k.altI then
    if !s.keyPressed218 then do
      let t ← ShowProcessInfo env s
      pure { t with keyPressed218 := true }
    else pure s
  else pure { s with keyPressed224 := false }

/-- `CheckHotkeys` (lines 203-227): the Alt+L block, then the Alt+I block. -/
def CheckHotkeys (env : Env) (k : KeyReadings) (s : State) : Except Fault State := do
  let s1 ← pollAltL env k s
  pollAltI env k s1

/-! ## The five XInput proxies (lines 229-272) -/

/-- A call through a saved XInput pointer: the event is recorded and the
status code is what the target returns. -/
def callOriginal (env : Env) (target : Addr) (args : List Nat) (s : State) : DWORD × State :=
  (env.xinputResult s.trace target args,
   { s with trace := s.trace ++ [Event.xinput target args] })

/-- `XInputGetState` (lines 230-243). -/
def XInputGetState (env : Env) (k : KeyReadings) (dwUserIndex pState : Nat) (s : State) :
    Except Fault (DWORD × State) :=
  if s.OriginalXInputGetState = 0 then do
    let s1 ← WriteLog env "Error: Original XInputGetState function not found\n".toList s
    pure (ERROR_DEVICE_NOT_CONNECTED, s1)
  else do
    let r := callOriginal env s.OriginalXInputGetState [dwUserIndex, pState] s
    let s1 ← CheckHotkeys env k r.2
    pure (r.1, s1)

/-- `XInputSetState` (lines 246-251). -/
def XInputSetState (env : Env) (dwUserIndex pVibration : Nat) (s : State) : DWORD × State :=
  if s.OriginalXInputSetState = 0 then (ERROR_DEVICE_NOT_CONNECTED, s)
  else callOriginal env s.OriginalXInputSetState [dwUserIndex, pVibration] s

/-- `XInputGetCapabilities` (lines 253-258). -/
def XInputGetCapabilities (env : Env) (dwUserIndex dwFlags pCapabilities : Nat) (s : State) :
    DWORD × State :=
  if s.OriginalXInputGetCapabilities = 0 then (ERROR_DEVICE_NOT_CONNECTED, s)
  else callOriginal env s.OriginalXInputGetCapabilities [dwUserIndex, dwFlags, pCapabilities] s

/-- `XInputGetBatteryInformation` (lines 260-265). -/
def XInputGetBatteryInformation (env : Env) (dwUserIndex devType pBatteryInformation : Nat)
    (s : State) : DWORD × State :=
  if s.OriginalXInputGetBatteryInformation = 0 then (ERROR_DEVICE_NOT_CONNECTED, s)
  else
    callOriginal env s.OriginalXInputGetBatteryInformation
      [dwUserIndex, devType, pBatteryInformation] s

/-- `XInputGetKeystroke` (lines 267-272). -/
def XInputGetKeystroke (env : Env) (dwUserIndex dwReserved pKeystroke : Nat) (s : State) :
    DWORD × State :=
  if s.OriginalXInputGetKeystroke = 0 then (ERROR_DEVICE_NOT_CONNECTED, s)
  else callOriginal env s.OriginalXInputGetKeystroke [dwUserIndex, dwReserved, pKeystroke] s

/-! ## Patching the two diagnostic entry points (lines 274-301) -/

/-- `VirtualProtect(addr, size, newProtect, &old)`, where the variable `old`
holds `old` before the call. Returns the BOOL result, the content of the
variable after the call, and the state. -/
def VirtualProtect (env : Env) (addr : Addr) (size : Nat) (newProtect old : DWORD)
    (s : State) : Bool × DWORD × State :=
  let s1 := { s with trace := s.trace ++ [Event.protect addr size newProtect] }
  match env.virtualProtect s.trace addr size newProtect with
  | some previous => (true, previous, s1)
  | none => (false, old, s1)

/-- The body shared by lines 284-288 and 293-297: `oldProtect` is declared
without a value, the page is asked to become writable, the observer's address
is stored in the slot, and the protection held by `oldProtect` is asked back.
Neither result of `VirtualProtect` is looked at: the store is issued whatever
the first request answered, and raises an access violation when the slot is
not writable at that point. -/
def patchSlot (env : Env) (pIAT hook : Addr) (s : State) : Except Fault State :=
  let oldProtect := env.indeterminate s.trace
  let r1 := VirtualProtect env pIAT env.sizeofFARPROC PAGE_READWRITE oldProtect s
  if env.storeLands r1.2.2.trace pIAT then
    let s1 := { r1.2.2 with trace := r1.2.2.trace ++ [Event.store pIAT hook] }
    let r2 := VirtualProtect env pIAT env.sizeofFARPROC r1.2.1 r1.2.1 s1
    .ok r2.2.2
  else .error (Fault.accessViolation pIAT)

/-- One of the two blocks of lines 283-290 and 292-299: when the saved
original is not NULL the slot is patched and the success is logged. -/
def hookEntry (env : Env) (original slot hook : Addr) (text : StdString) (s : State) :
    Except Fault State :=
  if original ≠ 0 then do
    let p ← patchSlot env slot hook s
    WriteLog env text p
  else pure s

/-- `HookDebugFunctions` (lines 275-301). -/
def HookDebugFunctions (env : Env) (s : State) : Except Fault State :=
  let kernel32 := env.GetModuleHandleA "kernel32.dll".toList
  if kernel32 ≠ 0 then do
    let s1 :=
      { s with
        OriginalOutputDebugStringA := env.GetProcAddress kernel32 "OutputDebugStringA".toList
        OriginalOutputDebugStringW := env.GetProcAddress kernel32 "OutputDebugStringW".toList }
    let s2 ← hookEntry env s1.OriginalOutputDebugStringA
      (env.GetProcAddress kernel32 "OutputDebugStringA".toList)
      env.addrHookedOutputDebugStringA "Hooked OutputDebugStringA\n".toList s1
    hookEntry env s2.OriginalOutputDebugStringW
      (env.GetProcAddress kernel32 "OutputDebugStringW".toList)
      env.addrHookedOutputDebugStringW "Hooked OutputDebugStringW\n".toList s2
  else pure s

/-! ## Start-up and shutdown (lines 303-450) -/

/-- The defaults of lines 306-314. -/
def defaultConfig : Config where
  logToFile := true
  logToConsole := true
  showTimestamps := true
  captureOutputDebugString := true
  captureETW := false
  captureD3D := false
  filterMessages := false
  logFilePath := "game_debug_log.txt".toList
  filterPattern := []

/-- The payloads `ps` passed one after another to `HookedOutputDebugStringA`. -/
def feedA (env : Env) (ps : List CString) (s : State) : Except Fault State :=
  ps.foldlM (fun st p => HookedOutputDebugStringA env p st) s

/-- The value of `isLoggingEnabled` after each of a run of `CheckHotkeys` polls. -/
def flagsAfterPolls (env : Env) : State → List KeyReadings → Except Fault (List Bool)
  | _, [] => pure []
  | s, k :: ks => do
    let s1 ← CheckHotkeys env k s
    let rest ← flagsAfterPolls env s1 ks
    pure (s1.isLoggingEnabled :: rest)

/-- The state after a run of `CheckHotkeys` polls. -/
def afterPolls (env : Env) (ks : List KeyReadings) (s : State) : Except Fault State :=
  ks.foldlM (fun st k => CheckHotkeys env k st) s

/-- How many times a flag changes along `previous :: values`. -/
def transitions (previous : Bool) : List Bool → Nat
  | [] => 0
  | b :: bs => (if b = previous then 0 else 1) + transitions b bs

/-- A poll that reads Alt+L as pressed and Alt+I as released. -/
def pollPressed : KeyReadings := { menuL := 0x8000, keyL := 0x8001, menuI := 0x8000, keyI := 0 }

/-- A poll that reads every key as released. -/
def pollReleased : KeyReadings := { menuL := 0, keyL := 0, menuI := 0, keyI := 0 }

/-- A process where every outside call succeeds: the real DLL exports the
five entry points and kernel32 exports the two diagnostic ones. -/
def Env.sample : Env where
  clock := "[2024-01-01 00:00:00] ".toList
  configFile := none
  currentProcessId := 4242
  openProcess := true
  imagePath := some "C:\\Games\\game.exe".toList
  modules := some [some "game.exe".toList, none, some "kernel32.dll".toList]
  freopenOk := true
  fileOpenOk := fun _ => true
  systemDirectory := "C:\\Windows\\system32".toList
  LoadLibraryA := fun _ => 0x5000
  GetModuleHandleA := fun _ => 0x7000
  GetProcAddress := fun m name =>
    if m = 0x7000 then
      (if name = "OutputDebugStringA".toList then 0x7100
       else if name = "OutputDebugStringW".toList then 0x7200 else 0)
    else if name = "XInputGetState".toList then 0x5100
    else if name = "XInputSetState".toList then 0x5200
    else if name = "XInputGetCapabilities".toList then 0x5300
    else if name = "XInputGetBatteryInformation".toList then 0x5400
    else if name = "XInputGetKeystroke".toList then 0x5500
    else 0
  addrHookedOutputDebugStringA := 0x1100
  addrHookedOutputDebugStringW := 0x1200
  sizeofFARPROC := 8
  xinputResult := fun history _ _ => history.length
  virtualProtect := fun _ _ _ _ => some 0x20
  storeLands := fun _ _ => true
  indeterminate := fun _ => 0xCCCCCCCC
  wideSize := fun w => w.length + 1
  wideBytes := fun w _ => w.map Char.ofNat ++ [NUL]

/-- As `Env.sample`, but every protection change is refused, so that the
code pages of kernel32 stay read-only and no store to them lands. -/
def Env.protectRefused : Env :=
  { Env.sample with virtualProtect := fun _ _ _ _ => none, storeLands := fun _ _ => false }

/-- As `Env.sample`, but the wide-to-narrow conversion produces nothing. -/
def Env.conversionFails : Env :=
  { Env.sample with wideSize := fun _ => 0, wideBytes := fun _ _ => [] }

/-- A state with capture on, the filter set to `HUD`, and all seven saved
pointers set. -/
def State.hud : State :=
  { State.start with
    config := { defaultConfig with filterMessages := true, filterPattern := "HUD".toList }
    OriginalXInputGetState := 0x5100
    OriginalXInputSetState := 0x5200
    OriginalXInputGetCapabilities := 0x5300
    OriginalXInputGetBatteryInformation := 0x5400
    OriginalXInputGetKeystroke := 0x5500
    OriginalOutputDebugStringA := 0x7100
    OriginalOutputDebugStringW := 0x7200 }

/-- A state with capture on, no filter, and the seven saved pointers set. -/
def State.capturing : State := { State.hud with config := defaultConfig }

/-- As `State.capturing`, with the console and the log file open: the
configuration and streams a successful `InitializeDLL` leaves by default. -/
def State.logging : State :=
  { State.capturing with consoleOutput := true, fileOutputOpen := true }

/-- As `State.hud`, with the console and the log file open. -/
def State.hudLogging : State :=
  { State.hud with consoleOutput := true, fileOutputOpen := true }

/-- A payload of 4088 characters: with the 8 characters of `[DEBUG] ` and the
terminator it is one byte too long for the buffer of line 97. -/
def longPayload : CString := List.replicate 4088 'a'

/-- A payload of 4088 characters that starts with `HUD`. -/
def longHudPayload : CString := "HUD".toList ++ List.replicate 4085 'x'

/-- The state without the text written so far: what `WriteLog` cannot change. -/
def State.core (s : State) : State := { s with consoleText := [], fileText := [] }

end XInputLogger

namespace XInputLogger

/-! ## Sequencing -/

theorem ok_bind {α β : Type} (x : α) (g : α → Except Fault β) :
    (Except.ok x >>= g) = g x := rfl

theorem error_bind {α β : Type} (e : Fault) (g : α → Except Fault β) :
    ((Except.error e : Except Fault α) >>= g) = Except.error e := rfl

theorem fileSink_core {s t : State} (h : s.core = t.core) : fileSink s = fileSink t := by
  have h1 := congrArg State.isLoggingEnabled h
  have h2 := congrArg State.config h
  have h3 := congrArg State.fileOutputOpen h
  unfold fileSink
  rw [show s.isLoggingEnabled = t.isLoggingEnabled from h1,
    show s.config = t.config from h2, show s.fileOutputOpen = t.fileOutputOpen from h3]

theorem fileSink_eq_true (s : State) :
    fileSink s = true ↔
      (!s.isLoggingEnabled) = false ∧ (s.config.logToFile && s.fileOutputOpen) = true := by
  unfold fileSink
  cases s.isLoggingEnabled <;> cases (s.config.logToFile && s.fileOutputOpen) <;> decide

theorem WriteLog_ok (env : Env) (t : StdString) (s : State)
    (h : fileSink s = true → t.length < LOG_BUFFER_SIZE) :
    ∃ s', WriteLog env t s = .ok s' ∧ s'.core = s.core := by
  unfold WriteLog
  dsimp only
  by_cases hen : (!s.isLoggingEnabled) = true
  · rw [if_pos hen]
    exact ⟨s, rfl, rfl⟩
  · rw [if_neg hen]
    have hen2 : (!s.isLoggingEnabled) = false := by simpa using hen
    by_cases hfile : (s.config.logToFile && s.fileOutputOpen) = true
    · have hfit : t.length < LOG_BUFFER_SIZE := h ((fileSink_eq_true s).mpr ⟨hen2, hfile⟩)
      by_cases hcon : (s.config.logToConsole && s.consoleOutput) = true
      · rw [if_pos hcon, if_pos hfile, if_pos hfit]
        exact ⟨_, rfl, rfl⟩
      · rw [if_neg hcon, if_pos hfile, if_pos hfit]
        exact ⟨_, rfl, rfl⟩
    · by_cases hcon : (s.config.logToConsole && s.consoleOutput) = true
      · rw [if_pos hcon, if_neg hfile]
        exact ⟨_, rfl, rfl⟩
      · rw [if_neg hcon, if_neg hfile]
        exact ⟨_, rfl, rfl⟩

theorem WriteLog_error (env : Env) (t : StdString) (s : State)
    (hs : fileSink s = true) (hl : LOG_BUFFER_SIZE ≤ t.length) :
    WriteLog env t s = .error Fault.invalidParameter := by
  obtain ⟨hen, hfile⟩ := (fileSink_eq_true s).mp hs
  have hen2 : ¬ (!s.isLoggingEnabled) = true := by rw [hen]; decide
  have hfit : ¬ t.length < LOG_BUFFER_SIZE := by omega
  unfold WriteLog
  dsimp only
  rw [if_neg hen2]
  by_cases hcon : (s.config.logToConsole && s.consoleOutput) = true
  · rw [if_pos hcon, if_pos hfile, if_neg hfit]
  · rw [if_neg hcon, if_pos hfile, if_neg hfit]

theorem WriteLogs_ok (env : Env) (ts : List StdString) (s : State)
    (h : ∀ t ∈ ts, t.length < LOG_BUFFER_SIZE) :
    ∃ s', WriteLogs env ts s = .ok s' ∧ s'.core = s.core := by
  unfold WriteLogs
  induction ts generalizing s with
  | nil => exact ⟨s, rfl, rfl⟩
  | cons t ts ih =>
    obtain ⟨s1, h1, hc1⟩ := WriteLog_ok env t s (fun _ => h t (List.mem_cons_self t ts))
    obtain ⟨s2, h2, hc2⟩ := ih s1 (fun u hu => h u (List.mem_cons_of_mem t hu))
    refine ⟨s2, ?_, hc2.trans hc1⟩
    rw [List.foldlM_cons, h1, ok_bind]
    exact h2

theorem digitsOf_length (fuel n : Nat) : (digitsOf fuel n).length ≤ fuel := by
  induction fuel generalizing n with
  | zero => simp [digitsOf]
  | succ fuel ih =>
    unfold digitsOf
    split_ifs
    · simp
    · have := ih (n / 10)
      simp only [List.length_append, List.length_singleton]
      omega

theorem formatD_length (v : Nat) : (formatD v).length ≤ 11 := by
  unfold formatD
  split_ifs
  · have := digitsOf_length 10 (v % 2 ^ 32); omega
  · have := digitsOf_length 10 (2 ^ 32 - v % 2 ^ 32)
    simp only [List.length_cons]
    omega

theorem formatZu_length (v : Nat) : (formatZu v).length ≤ 20 :=
  digitsOf_length 20 _

theorem charArray_length (s : CString) : (charArray MAX_PATH s).length ≤ 259 := by
  unfold charArray MAX_PATH
  rw [List.length_take]
  omega

theorem short_of_parts (a b c : StdString) (ha : a.length ≤ 64) (hb : b.length ≤ 259)
    (hc : c.length ≤ 64) : (a ++ b ++ c).length < LOG_BUFFER_SIZE := by
  simp only [List.length_append, LOG_BUFFER_SIZE]
  omega

theorem short_of_const (a : StdString) (ha : a.length ≤ 64) : a.length < LOG_BUFFER_SIZE := by
  unfold LOG_BUFFER_SIZE
  omega

theorem processInfoLines_short (env : Env) (s : State) :
    ∀ t ∈ processInfoLines env s, t.length < LOG_BUFFER_SIZE := by
  intro t ht
  unfold processInfoLines at ht
  simp only [List.mem_append, List.mem_cons, List.mem_singleton, List.not_mem_nil,
    or_false] at ht
  rcases ht with ((h | h | h) | h) | h
  · rw [h]; exact short_of_const _ (by decide)
  · rw [h]; exact short_of_parts _ _ _ (by decide) (charArray_length _) (by decide)
  · rw [h]
    exact short_of_parts _ _ _ (by decide) (le_trans (formatD_length _) (by decide))
      (by decide)
  · split_ifs at h
    · cases hm : env.modules with
      | none => rw [hm] at h; simp at h
      | some mods =>
        rw [hm] at h
        simp only [List.mem_append, List.mem_cons, List.mem_singleton, List.not_mem_nil,
          or_false, List.mem_filterMap] at h
        rcases h with (h | ⟨m, _, hm2⟩) | h
        · rw [h]; exact short_of_const _ (by decide)
        · cases m with
          | none => simp at hm2
          | some name =>
            simp only [Option.map_some', Option.some.injEq] at hm2
            rw [← hm2]
            exact short_of_parts _ _ _ (by decide) (charArray_length _) (by decide)
        · split_ifs at h
          · simp only [List.mem_singleton] at h
            rw [h]
            exact short_of_parts _ _ _ (by decide)
              (le_trans (formatD_length _) (by decide)) (by decide)
          · simp at h
    · simp at h
  · rw [h]; exact short_of_const _ (by decide)

theorem ShowProcessInfo_ok (env : Env) (s : State) :
    ∃ s', ShowProcessInfo env s = .ok s' ∧ s'.core = s.core :=
  WriteLogs_ok env _ s (processInfoLines_short env s)

theorem ToggleLogging_ok (env : Env) (s : State) :
    ∃ s', ToggleLogging env s = .ok s'
      ∧ s'.core = { s.core with isLoggingEnabled := !s.isLoggingEnabled } := by
  unfold ToggleLogging
  dsimp only
  split_ifs
  · obtain ⟨s', h1, hc⟩ := WriteLog_ok env "Logging enabled\n".toList
      { s with isLoggingEnabled := !s.isLoggingEnabled }
      (fun _ => short_of_const _ (by decide))
    exact ⟨s', h1, hc⟩
  · exact ⟨_, rfl, rfl⟩

/-! ## Hotkey polling -/

theorem pollAltL_ok (env : Env) (k : KeyReadings) (s : State) :
    ∃ s', pollAltL env k s = .ok s'
      ∧ s'.trace = s.trace
      ∧ s'.isLoggingEnabled =
          (if k.altL = true ∧ s.keyPressed206 = false then !s.isLoggingEnabled
           else s.isLoggingEnabled)
      ∧ s'.keyPressed206 = (s.keyPressed206 || k.altL) := by
  unfold pollAltL
  by_cases hL : k.altL = true
  · by_cases hp : (!s.keyPressed206) = true
    · obtain ⟨t, ht, hc⟩ := ToggleLogging_ok env s
      have hp2 : s.keyPressed206 = false := by simpa using hp
      refine ⟨{ t with keyPressed206 := true }, ?_, ?_, ?_, ?_⟩
      · rw [if_pos hL, if_pos hp, ht, ok_bind]; rfl
      · have h := congrArg State.trace hc
        exact h
      · have h := congrArg State.isLoggingEnabled hc
        rw [if_pos ⟨hL, hp2⟩]
        exact h
      · rw [hp2, hL]; rfl
    · have hp2 : s.keyPressed206 = true := by simpa using hp
      refine ⟨s, ?_, rfl, ?_, ?_⟩
      · rw [if_pos hL, if_neg hp]; rfl
      · rw [if_neg (by rw [hp2]; simp)]
      · rw [hp2]; rfl
  · have hL2 : k.altL = false := by simpa using hL
    refine ⟨{ s with keyPressed212 := false }, ?_, rfl, ?_, ?_⟩
    · rw [if_neg hL]; rfl
    · rw [if_neg (by rw [hL2]; simp)]
    · rw [hL2]; simp

theorem pollAltI_ok (env : Env) (k : KeyReadings) (s : State) :
    ∃ s', pollAltI env k s = .ok s'
      ∧ s'.trace = s.trace ∧ s'.isLoggingEnabled = s.isLoggingEnabled
      ∧ s'.keyPressed206 = s.keyPressed206 := by
  unfold pollAltI
  by_cases hI : k.altI = true
  · by_cases hp : (!s.keyPressed218) = true
    · obtain ⟨t, ht, hc⟩ := ShowProcessInfo_ok env s
      refine ⟨{ t with keyPressed218 := true }, ?_, ?_, ?_, ?_⟩
      · rw [if_pos hI, if_pos hp, ht, ok_bind]; rfl
      · have h := congrArg State.trace hc
        exact h
      · have h := congrArg State.isLoggingEnabled hc
        exact h
      · have h := congrArg State.keyPressed206 hc
        exact h
    · exact ⟨s, by rw [if_pos hI, if_neg hp]; rfl, rfl, rfl, rfl⟩
  · exact ⟨{ s with keyPressed224 := false }, by rw [if_neg hI]; rfl, rfl, rfl, rfl⟩

theorem CheckHotkeys_ok (env : Env) (k : KeyReadings) (s : State) :
    ∃ s', CheckHotkeys env k s = .ok s'
      ∧ s'.trace = s.trace
      ∧ s'.isLoggingEnabled =
          (if k.altL = true ∧ s.keyPressed206 = false then !s.isLoggingEnabled
           else s.isLoggingEnabled)
      ∧ s'.keyPressed206 = (s.keyPressed206 || k.altL) := by
  obtain ⟨s1, h1, ht1, hf1, hk1⟩ := pollAltL_ok env k s
  obtain ⟨s2, h2, ht2, hf2, hk2⟩ := pollAltI_ok env k s1
  refine ⟨s2, ?_, ht2.trans ht1, hf2.trans hf1, hk2.trans hk1⟩
  unfold CheckHotkeys
  rw [h1, ok_bind, h2]

/-! ## The XInput proxies -/

/-- Claim C1 (unresolved fallback). For each of the five proxies and for
every argument tuple: if the corresponding `Original*` pointer is NULL, the
proxy returns `ERROR_DEVICE_NOT_CONNECTED`, which is 1167, and the trace of
outside calls is what it was before, so the original is not invoked. -/
theorem unresolved_fallback (env : Env) (k : KeyReadings) (a b c : Nat) (s : State) :
    (s.OriginalXInputGetState = 0 →
      ∃ s', XInputGetState env k a b s = .ok (1167, s') ∧ s'.trace = s.trace) ∧
    (s.OriginalXInputSetState = 0 →
      (XInputSetState env a b s).1 = 1167 ∧ (XInputSetState env a b s).2.trace = s.trace) ∧
    (s.OriginalXInputGetCapabilities = 0 →
      (XInputGetCapabilities env a b c s).1 = 1167
        ∧ (XInputGetCapabilities env a b c s).2.trace = s.trace) ∧
    (s.OriginalXInputGetBatteryInformation = 0 →
      (XInputGetBatteryInformation env a b c s).1 = 1167
        ∧ (XInputGetBatteryInformation env a b c s).2.trace = s.trace) ∧
    (s.OriginalXInputGetKeystroke = 0 →
      (XInputGetKeystroke env a b c s).1 = 1167
        ∧ (XInputGetKeystroke env a b c s).2.trace = s.trace) := by
  refine ⟨?_, ?_, ?_, ?_, ?_⟩
  · intro h
    obtain ⟨s1, h1, hc⟩ := WriteLog_ok env
      "Error: Original XInputGetState function not found\n".toList s
      (fun _ => short_of_const _ (by decide))
    refine ⟨s1, ?_, ?_⟩
    · unfold XInputGetState
      rw [if_pos h, h1, ok_bind]
      rfl
    · have ht := congrArg State.trace hc
      exact ht
  · intro h
    unfold XInputSetState
    rw [if_pos h]
    exact ⟨rfl, rfl⟩
  · intro h
    unfold XInputGetCapabilities
    rw [if_pos h]
    exact ⟨rfl, rfl⟩
  · intro h
    unfold XInputGetBatteryInformation
    rw [if_pos h]
    exact ⟨rfl, rfl⟩
  · intro h
    unfold XInputGetKeystroke
    rw [if_pos h]
    exact ⟨rfl, rfl⟩

/-- Instance of C1: in the load-time state all five pointers are NULL, and
each proxy answers 1167 without adding a call to the (empty) trace. -/
theorem unresolved_fallback_witness :
    (∃ s', XInputGetState Env.sample pollPressed 0 64 State.start = .ok (1167, s')
      ∧ s'.trace = []) ∧
    ((XInputSetState Env.sample 0 64 State.start).1 = 1167
      ∧ (XInputSetState Env.sample 0 64 State.start).2.trace = []) ∧
    ((XInputGetCapabilities Env.sample 0 1 64 State.start).1 = 1167
      ∧ (XInputGetCapabilities Env.sample 0 1 64 State.start).2.trace = []) ∧
    ((XInputGetBatteryInformation Env.sample 0 1 64 State.start).1 = 1167
      ∧ (XInputGetBatteryInformation Env.sample 0 1 64 State.start).2.trace = []) ∧
    ((XInputGetKeystroke Env.sample 0 1 64 State.start).1 = 1167
      ∧ (XInputGetKeystroke Env.sample 0 1 64 State.start).2.trace = []) :=
  have h := unresolved_fallback Env.sample pollPressed 0 1 64 State.start
  ⟨(unresolved_fallback Env.sample pollPressed 0 64 0 State.start).1 rfl,
   (unresolved_fallback Env.sample pollPressed 0 64 0 State.start).2.1 rfl,
   h.2.2.1 rfl, h.2.2.2.1 rfl, h.2.2.2.2 rfl⟩

/-- Claim C2 (forwarding fidelity). For each of the five proxies and for
every argument tuple: if the corresponding `Original*` pointer is not NULL,
the proxy adds exactly one call to the trace, the call of that pointer with
the proxy's own arguments, and returns the status code this call returned.
For `XInputGetState` this holds for every outcome `k` of the hotkey poll that
follows the call. -/
theorem forwarding_fidelity (env : Env) (k : KeyReadings) (a b c : Nat) (s : State) :
    (s.OriginalXInputGetState ≠ 0 →
      ∃ s', XInputGetState env k a b s
          = .ok (env.xinputResult s.trace s.OriginalXInputGetState [a, b], s')
        ∧ s'.trace = s.trace ++ [Event.xinput s.OriginalXInputGetState [a, b]]) ∧
    (s.OriginalXInputSetState ≠ 0 →
      (XInputSetState env a b s).1 = env.xinputResult s.trace s.OriginalXInputSetState [a, b]
      ∧ (XInputSetState env a b s).2.trace
          = s.trace ++ [Event.xinput s.OriginalXInputSetState [a, b]]) ∧
    (s.OriginalXInputGetCapabilities ≠ 0 →
      (XInputGetCapabilities env a b c s).1
          = env.xinputResult s.trace s.OriginalXInputGetCapabilities [a, b, c]
      ∧ (XInputGetCapabilities env a b c s).2.trace
          = s.trace ++ [Event.xinput s.OriginalXInputGetCapabilities [a, b, c]]) ∧
    (s.OriginalXInputGetBatteryInformation ≠ 0 →
      (XInputGetBatteryInformation env a b c s).1
          = env.xinputResult s.trace s.OriginalXInputGetBatteryInformation [a, b, c]
      ∧ (XInputGetBatteryInformation env a b c s).2.trace
          = s.trace ++ [Event.xinput s.OriginalXInputGetBatteryInformation [a, b, c]]) ∧
    (s.OriginalXInputGetKeystroke ≠ 0 →
      (XInputGetKeystroke env a b c s).1
          = env.xinputResult s.trace s.OriginalXInputGetKeystroke [a, b, c]
      ∧ (XInputGetKeystroke env a b c s).2.trace
          = s.trace ++ [Event.xinput s.OriginalXInputGetKeystroke [a, b, c]]) := by
  refine ⟨?_, ?_, ?_, ?_, ?_⟩
  · intro h
    obtain ⟨s1, h1, ht, _, _⟩ := CheckHotkeys_ok env k
      (callOriginal env s.OriginalXInputGetState [a, b] s).2
    refine ⟨s1, ?_, ht⟩
    unfold XInputGetState
    rw [if_neg h]
    dsimp only
    rw [h1, ok_bind]
    rfl
  · intro h
    unfold XInputSetState
    rw [if_neg h]
    exact ⟨rfl, rfl⟩
  · intro h
    unfold XInputGetCapabilities
    rw [if_neg h]
    exact ⟨rfl, rfl⟩
  · intro h
    unfold XInputGetBatteryInformation
    rw [if_neg h]
    exact ⟨rfl, rfl⟩
  · intro h
    unfold XInputGetKeystroke
    rw [if_neg h]
    exact ⟨rfl, rfl⟩

/-- Instance of C2: `XInputGetState` with its pointer set, on a poll that
toggles the logging flag. The one call recorded is the forwarded one, the
status returned is the original's, and the flag did change. -/
theorem forwarding_fidelity_witness :
    (∃ s', XInputGetState Env.sample pollPressed 2 64 State.capturing
          = .ok (Env.sample.xinputResult [] 0x5100 [2, 64], s')
        ∧ s'.trace = [Event.xinput 0x5100 [2, 64]])
    ∧ (XInputGetState Env.sample pollPressed 2 64 State.capturing).map
        (fun r => r.2.isLoggingEnabled) = .ok false
    ∧ State.capturing.isLoggingEnabled = true :=
  ⟨(forwarding_fidelity Env.sample pollPressed 2 64 0 State.capturing).1 (by decide),
   by decide, by decide⟩

/-! ## Hotkey edge detection -/

theorem flagsAfterPolls_cons (env : Env) (k : KeyReadings) (ks : List KeyReadings)
    (s s1 : State) (flags : List Bool)
    (h1 : CheckHotkeys env k s = .ok s1) (h2 : flagsAfterPolls env s1 ks = .ok flags) :
    flagsAfterPolls env s (k :: ks) = .ok (s1.isLoggingEnabled :: flags) := by
  unfold flagsAfterPolls
  rw [h1, ok_bind, h2, ok_bind]
  rfl

theorem afterPolls_cons (env : Env) (k : KeyReadings) (ks : List KeyReadings)
    (s s1 : State) (h1 : CheckHotkeys env k s = .ok s1) :
    afterPolls env (k :: ks) s = afterPolls env ks s1 := by
  unfold afterPolls
  rw [List.foldlM_cons, h1, ok_bind]

theorem flagsAfterPolls_latched (env : Env) (ks : List KeyReadings) (s : State)
    (h : s.keyPressed206 = true) :
    flagsAfterPolls env s ks = .ok (List.replicate ks.length s.isLoggingEnabled) := by
  induction ks generalizing s with
  | nil => rfl
  | cons k ks ih =>
    obtain ⟨s1, h1, _, hf, hp⟩ := CheckHotkeys_ok env k s
    have hf1 : s1.isLoggingEnabled = s.isLoggingEnabled := by
      rw [hf, if_neg (by rw [h]; simp)]
    have hp1 : s1.keyPressed206 = true := by rw [hp, h]; rfl
    rw [flagsAfterPolls_cons env k ks s s1 _ h1 (ih s1 hp1), hf1]
    rfl

theorem afterPolls_latched (env : Env) (ks : List KeyReadings) (s : State)
    (h : s.keyPressed206 = true) :
    ∃ s', afterPolls env ks s = .ok s' ∧ s'.isLoggingEnabled = s.isLoggingEnabled
      ∧ s'.keyPressed206 = true := by
  induction ks generalizing s with
  | nil => exact ⟨s, rfl, rfl, h⟩
  | cons k ks ih =>
    obtain ⟨s1, h1, _, hf, hp⟩ := CheckHotkeys_ok env k s
    have hf1 : s1.isLoggingEnabled = s.isLoggingEnabled := by
      rw [hf, if_neg (by rw [h]; simp)]
    have hp1 : s1.keyPressed206 = true := by rw [hp, h]; rfl
    obtain ⟨s', h2, hf2, hp2⟩ := ih s1 hp1
    exact ⟨s', by rw [afterPolls_cons env k ks s s1 h1]; exact h2, hf2.trans hf1, hp2⟩

theorem transitions_replicate (b : Bool) (n : Nat) :
    transitions b (List.replicate n b) = 0 := by
  induction n with
  | zero => rfl
  | succ n ih => simp [List.replicate_succ, transitions, ih]

/-- Claim C7 (hotkey edge-triggering while held). From a state in which
logging is enabled and the held-branch static of line 206 is still false, as
in the freshly initialised state, any non-empty run of `CheckHotkeys` polls
that all read Alt+L as pressed runs to its end and leaves `isLoggingEnabled`
false after every poll of the run: the flag changes once, at the first poll,
and never again while the combination stays held. -/
theorem hotkey_held_toggles_once (env : Env) (ks : List KeyReadings) (s : State)
    (hen : s.isLoggingEnabled = true) (hfresh : s.keyPressed206 = false)
    (hne : ks ≠ []) (hheld : ∀ k ∈ ks, k.altL = true) :
    flagsAfterPolls env s ks = .ok (List.replicate ks.length false) ∧
    transitions s.isLoggingEnabled (List.replicate ks.length false) = 1 ∧
    ∃ s', afterPolls env ks s = .ok s' ∧ s'.isLoggingEnabled = false := by
  cases ks with
  | nil => exact absurd rfl hne
  | cons k ks =>
    have hk : k.altL = true := hheld k (List.mem_cons_self k ks)
    obtain ⟨s1, h1, _, hf, hp⟩ := CheckHotkeys_ok env k s
    have hf1 : s1.isLoggingEnabled = false := by
      rw [hf, if_pos ⟨hk, hfresh⟩, hen]; rfl
    have hp1 : s1.keyPressed206 = true := by rw [hp, hk, hfresh]; rfl
    refine ⟨?_, ?_, ?_⟩
    · rw [flagsAfterPolls_cons env k ks s s1 _ h1 (flagsAfterPolls_latched env ks s1 hp1),
        hf1]
      rfl
    · rw [hen, List.length_cons, List.replicate_succ]
      unfold transitions
      rw [transitions_replicate]
      rfl
    · obtain ⟨s', h2, hf2, _⟩ := afterPolls_latched env ks s1 hp1
      exact ⟨s', by rw [afterPolls_cons env k ks s s1 h1]; exact h2, hf2.trans hf1⟩

/-- Instance of C7 with 1000 polls: holding Alt+L across 1000 consecutive
polls from the load-time state ends with logging disabled after exactly one
transition. -/
theorem hotkey_held_1000_polls :
    flagsAfterPolls Env.sample State.start (List.replicate 1000 pollPressed)
        = .ok (List.replicate 1000 false)
    ∧ transitions true (List.replicate 1000 false) = 1
    ∧ ∃ s', afterPolls Env.sample (List.replicate 1000 pollPressed) State.start = .ok s'
        ∧ s'.isLoggingEnabled = false :=
  have h := hotkey_held_toggles_once Env.sample (List.replicate 1000 pollPressed) State.start
    rfl rfl
    (fun hnil => by
      have hlen := congrArg List.length hnil
      rw [List.length_replicate] at hlen
      exact absurd hlen (by decide))
    (fun k hk => by rw [List.eq_of_mem_replicate hk]; decide)
  by rw [List.length_replicate] at h; exact h

/-- Claim C6 at its failing input: Alt+L pressed, released, pressed again,
starting from the load-time state. The third poll reads the combination as
pressed after a poll that read it as released, yet `isLoggingEnabled` stays
false after it: the flag is toggled at the first poll only and ends DISABLED,
where a toggle per press would leave it ENABLED. The `keyPressed` cleared on
release (line 213) is not the `keyPressed` tested on press (line 207), which
is still true after the release. -/
theorem hotkey_second_press_ignored (env : Env) :
    pollPressed.altL = true ∧ pollReleased.altL = false ∧
    flagsAfterPolls env State.start [pollPressed, pollReleased, pollPressed]
      = .ok [false, false, false] ∧
    (∃ s', afterPolls env [pollPressed, pollReleased, pollPressed] State.start = .ok s'
      ∧ s'.isLoggingEnabled = false) ∧
    (∃ s', afterPolls env [pollPressed, pollReleased] State.start = .ok s'
      ∧ s'.keyPressed206 = true) := by
  have hP : pollPressed.altL = true := by decide
  have hR : pollReleased.altL = false := by decide
  obtain ⟨s1, h1, _, hf, hp⟩ := CheckHotkeys_ok env pollPressed State.start
  have hf1 : s1.isLoggingEnabled = false := by
    rw [hf, if_pos ⟨hP, rfl⟩]; rfl
  have hp1 : s1.keyPressed206 = true := by rw [hp, hP]; rfl
  refine ⟨hP, hR, ?_, ?_, ?_⟩
  · rw [flagsAfterPolls_cons env _ _ _ s1 _ h1 (flagsAfterPolls_latched env _ s1 hp1), hf1]
    rfl
  · obtain ⟨s', h2, hf2, _⟩ := afterPolls_latched env [pollReleased, pollPressed] s1 hp1
    exact ⟨s', by rw [afterPolls_cons env _ _ _ s1 h1]; exact h2, hf2.trans hf1⟩
  · obtain ⟨s', h2, _, hp2⟩ := afterPolls_latched env [pollReleased] s1 hp1
    exact ⟨s', by rw [afterPolls_cons env _ _ _ s1 h1]; exact h2, hp2⟩

/-! ## Substring search -/

theorem strstr_isSome (hay needle : CString) :
    (strstr hay needle).isSome = true ↔ needle <:+: hay := by
  induction hay with
  | nil =>
    unfold strstr
    by_cases h : needle = []
    · simp [h]
    · have h2 : needle.isEmpty = false := by
        cases needle with
        | nil => exact absurd rfl h
        | cons a l => rfl
      simp [h, h2]
  | cons c cs ih =>
    unfold strstr
    rw [List.infix_cons_iff]
    by_cases hp : needle.isPrefixOf (c :: cs) = true
    · simp only [hp, if_true, Option.isSome_some, true_iff]
      exact Or.inl (List.isPrefixOf_iff_prefix.mp hp)
    · have hnp : ¬ needle <+: c :: cs := fun h => hp (List.isPrefixOf_iff_prefix.mpr h)
      simp only [hp, if_false, Option.isSome_map', ih, Bool.false_eq_true]
      constructor
      · intro h; exact Or.inr h
      · intro h; exact h.resolve_left hnp

theorem find_eq_strstr (s pattern : StdString) : StdString.find s pattern = strstr s pattern := by
  induction s with
  | nil => rfl
  | cons c cs ih => unfold StdString.find strstr; rw [ih]

/-- The test of lines 149-152 / 180-183 holds exactly when the filter is not
in force or the text contains the pattern. -/
theorem shouldLog_iff (fm : Bool) (pattern hay : StdString) :
    (if (fm && !pattern.isEmpty) = true then (strstr hay pattern).isSome else true) = true ↔
      (fm = true → pattern ≠ [] → pattern <:+: hay) := by
  cases fm with
  | false => simp
  | true =>
    cases pattern with
    | nil => simp
    | cons x xs =>
      have h := strstr_isSome hay (x :: xs)
      have hc : ((true && !(x :: xs).isEmpty) = true) := rfl
      rw [if_pos hc, h]
      constructor
      · intro hin _ _; exact hin
      · intro hin; exact hin rfl (List.cons_ne_nil x xs)

/-! ## The capture step -/

theorem logAndStore_ok (env : Env) (text entry : StdString) (s : State)
    (h : fileSink s = true → text.length < LOG_BUFFER_SIZE) :
    ∃ s', logAndStore env text entry s = .ok s'
      ∧ s'.core = { s.core with messageBuffer := bufferAdd s.messageBuffer entry } := by
  obtain ⟨s2, h2, hc⟩ := WriteLog_ok env text s h
  refine ⟨{ s2 with messageBuffer := bufferAdd s2.messageBuffer entry }, ?_, ?_⟩
  · unfold logAndStore
    rw [h2, ok_bind]
    rfl
  · have hb : s2.messageBuffer = s.messageBuffer := by
      have h := congrArg State.messageBuffer hc
      exact h
    rw [hb]
    exact congrArg (fun c => { c with messageBuffer := bufferAdd s.messageBuffer entry }) hc

theorem logAndStore_error (env : Env) (text entry : StdString) (s : State)
    (hs : fileSink s = true) (hl : LOG_BUFFER_SIZE ≤ text.length) :
    logAndStore env text entry s = .error Fault.invalidParameter := by
  unfold logAndStore
  rw [WriteLog_error env text s hs hl, error_bind]

theorem captureA_eq (env : Env) (p : CString) (s : State) :
    captureA env p s =
      if s.config.captureOutputDebugString = true
          ∧ (s.config.filterMessages = true → s.config.filterPattern ≠ [] →
              s.config.filterPattern <:+: p) then
        logAndStore env ("[DEBUG] ".toList ++ p) p s
      else .ok s := by
  unfold captureA
  dsimp only
  by_cases hcap : s.config.captureOutputDebugString = true
  · rw [if_pos hcap]
    by_cases hr : (s.config.filterMessages = true → s.config.filterPattern ≠ [] →
        s.config.filterPattern <:+: p)
    · rw [if_pos ((shouldLog_iff _ _ _).mpr hr), if_pos ⟨hcap, hr⟩]
    · rw [if_neg (fun h => hr ((shouldLog_iff _ _ _).mp h)), if_neg (fun h => hr h.2)]
      rfl
  · rw [if_neg hcap, if_neg (fun h => hcap h.1)]
    rfl

theorem captureW_eq (env : Env) (w : WString) (s : State) :
    captureW env w s =
      if s.config.captureOutputDebugString = true
          ∧ (s.config.filterMessages = true → s.config.filterPattern ≠ [] →
              s.config.filterPattern <:+: strTo env w) then
        logAndStore env ("[DEBUG-W] ".toList ++ c_str (strTo env w)) (strTo env w) s
      else .ok s := by
  unfold captureW
  dsimp only
  rw [find_eq_strstr]
  by_cases hcap : s.config.captureOutputDebugString = true
  · rw [if_pos hcap]
    by_cases hr : (s.config.filterMessages = true → s.config.filterPattern ≠ [] →
        s.config.filterPattern <:+: strTo env w)
    · rw [if_pos ((shouldLog_iff _ _ _).mpr hr), if_pos ⟨hcap, hr⟩]
    · rw [if_neg (fun h => hr ((shouldLog_iff _ _ _).mp h)), if_neg (fun h => hr h.2)]
      rfl
  · rw [if_neg hcap, if_neg (fun h => hcap h.1)]
    rfl

theorem forwardA_core (p : CString) (s t : State) (h : t.core = s.core) :
    (forwardA p t).trace = (forwardA p s).trace
    ∧ (forwardA p t).messageBuffer = t.messageBuffer
    ∧ (forwardA p t).config = s.config
    ∧ fileSink (forwardA p t) = fileSink s := by
  have h1 : t.OriginalOutputDebugStringA = s.OriginalOutputDebugStringA := by
    have h' := congrArg State.OriginalOutputDebugStringA h
    exact h'
  have h2 : t.trace = s.trace := by
    have h' := congrArg State.trace h
    exact h'
  have h3 : t.config = s.config := by
    have h' := congrArg State.config h
    exact h'
  have h4 : fileSink t = fileSink s := fileSink_core h
  unfold forwardA
  by_cases h0 : s.OriginalOutputDebugStringA = 0
  · rw [if_neg (not_not.mpr (h1.trans h0)), if_neg (not_not.mpr h0)]
    exact ⟨h2, rfl, h3, h4⟩
  · rw [if_pos (fun h => h0 (h1.symm.trans h)), if_pos h0]
    exact ⟨by rw [h1, h2], rfl, h3, h4⟩

theorem forwardW_core (w : WString) (s t : State) (h : t.core = s.core) :
    (forwardW w t).trace = (forwardW w s).trace
    ∧ (forwardW w t).messageBuffer = t.messageBuffer := by
  have h1 : t.OriginalOutputDebugStringW = s.OriginalOutputDebugStringW := by
    have h' := congrArg State.OriginalOutputDebugStringW h
    exact h'
  have h2 : t.trace = s.trace := by
    have h' := congrArg State.trace h
    exact h'
  unfold forwardW
  by_cases h0 : s.OriginalOutputDebugStringW = 0
  · rw [if_neg (not_not.mpr (h1.trans h0)), if_neg (not_not.mpr h0)]
    exact ⟨h2, rfl⟩
  · rw [if_pos (fun h => h0 (h1.symm.trans h)), if_pos h0]
    exact ⟨by rw [h1, h2], rfl⟩

theorem forwardA_trace (p : CString) (s : State) (h : s.OriginalOutputDebugStringA ≠ 0) :
    (forwardA p s).trace = s.trace ++ [Event.debugStringA s.OriginalOutputDebugStringA p] := by
  unfold forwardA
  rw [if_pos h]

theorem forwardW_trace (w : WString) (s : State) (h : s.OriginalOutputDebugStringW ≠ 0) :
    (forwardW w s).trace = s.trace ++ [Event.debugStringW s.OriginalOutputDebugStringW w] := by
  unfold forwardW
  rw [if_pos h]

/-! ## The diagnostic observers -/

theorem debugA_text_length (p : CString) : ("[DEBUG] ".toList ++ p).length = p.length + 8 := by
  rw [List.length_append]
  have h : "[DEBUG] ".toList.length = 8 := by decide
  omega

theorem debugW_text_length (t : StdString) :
    ("[DEBUG-W] ".toList ++ t).length = t.length + 10 := by
  rw [List.length_append]
  have h : "[DEBUG-W] ".toList.length = 10 := by decide
  omega

theorem HookedA_retained (env : Env) (p : CString) (s : State)
    (hcap : s.config.captureOutputDebugString = true)
    (hr : s.config.filterMessages = true → s.config.filterPattern ≠ [] →
      s.config.filterPattern <:+: p)
    (hfit : fileSink s = true → p.length + 8 < LOG_BUFFER_SIZE) :
    ∃ s', HookedOutputDebugStringA env p s = .ok s'
      ∧ s'.messageBuffer = bufferAdd s.messageBuffer p
      ∧ s'.trace = (forwardA p s).trace
      ∧ s'.config = s.config ∧ fileSink s' = fileSink s := by
  obtain ⟨s1, h1, hc⟩ := logAndStore_ok env ("[DEBUG] ".toList ++ p) p s
    (fun h => by rw [debugA_text_length]; exact hfit h)
  have hcore : s1.core = ({ s with messageBuffer := bufferAdd s.messageBuffer p } : State).core :=
    hc
  obtain ⟨ht, hb, hcfg, hsink⟩ := forwardA_core p _ s1 hcore
  refine ⟨forwardA p s1, ?_, ?_, ?_, hcfg, ?_⟩
  · unfold HookedOutputDebugStringA
    rw [captureA_eq, if_pos ⟨hcap, hr⟩, h1, ok_bind]
    rfl
  · rw [hb]
    have h := congrArg State.messageBuffer hc
    exact h
  · rw [ht]
    unfold forwardA
    split_ifs <;> rfl
  · rw [hsink]
    rfl

theorem HookedA_fault (env : Env) (p : CString) (s : State)
    (hcap : s.config.captureOutputDebugString = true)
    (hr : s.config.filterMessages = true → s.config.filterPattern ≠ [] →
      s.config.filterPattern <:+: p)
    (hs : fileSink s = true) (hl : LOG_BUFFER_SIZE ≤ p.length + 8) :
    HookedOutputDebugStringA env p s = .error Fault.invalidParameter := by
  unfold HookedOutputDebugStringA
  rw [captureA_eq, if_pos ⟨hcap, hr⟩,
    logAndStore_error env _ p s hs (by rw [debugA_text_length]; exact hl), error_bind]

theorem HookedA_skipped (env : Env) (p : CString) (s : State)
    (h : ¬ (s.config.captureOutputDebugString = true
      ∧ (s.config.filterMessages = true → s.config.filterPattern ≠ [] →
          s.config.filterPattern <:+: p))) :
    HookedOutputDebugStringA env p s = .ok (forwardA p s) := by
  unfold HookedOutputDebugStringA
  rw [captureA_eq, if_neg h, ok_bind]
  rfl

theorem HookedW_retained (env : Env) (w : WString) (s : State)
    (hcap : s.config.captureOutputDebugString = true)
    (hr : s.config.filterMessages = true → s.config.filterPattern ≠ [] →
      s.config.filterPattern <:+: strTo env w)
    (hfit : fileSink s = true → (c_str (strTo env w)).length + 10 < LOG_BUFFER_SIZE) :
    ∃ s', HookedOutputDebugStringW env w s = .ok s'
      ∧ s'.messageBuffer = bufferAdd s.messageBuffer (strTo env w)
      ∧ s'.trace = (forwardW w s).trace := by
  obtain ⟨s1, h1, hc⟩ := logAndStore_ok env ("[DEBUG-W] ".toList ++ c_str (strTo env w))
    (strTo env w) s (fun h => by rw [debugW_text_length]; exact hfit h)
  have hcore : s1.core
      = ({ s with messageBuffer := bufferAdd s.messageBuffer (strTo env w) } : State).core :=
    hc
  obtain ⟨ht, hb⟩ := forwardW_core w _ s1 hcore
  refine ⟨forwardW w s1, ?_, ?_, ?_⟩
  · unfold HookedOutputDebugStringW
    rw [captureW_eq, if_pos ⟨hcap, hr⟩, h1, ok_bind]
    rfl
  · rw [hb]
    have h := congrArg State.messageBuffer hc
    exact h
  · rw [ht]
    unfold forwardW
    split_ifs <;> rfl

theorem HookedW_fault (env : Env) (w : WString) (s : State)
    (hcap : s.config.captureOutputDebugString = true)
    (hr : s.config.filterMessages = true → s.config.filterPattern ≠ [] →
      s.config.filterPattern <:+: strTo env w)
    (hs : fileSink s = true) (hl : LOG_BUFFER_SIZE ≤ (c_str (strTo env w)).length + 10) :
    HookedOutputDebugStringW env w s = .error Fault.invalidParameter := by
  unfold HookedOutputDebugStringW
  rw [captureW_eq, if_pos ⟨hcap, hr⟩,
    logAndStore_error env _ _ s hs (by rw [debugW_text_length]; exact hl), error_bind]

theorem HookedW_skipped (env : Env) (w : WString) (s : State)
    (h : ¬ (s.config.captureOutputDebugString = true
      ∧ (s.config.filterMessages = true → s.config.filterPattern ≠ [] →
          s.config.filterPattern <:+: strTo env w))) :
    HookedOutputDebugStringW env w s = .ok (forwardW w s) := by
  unfold HookedOutputDebugStringW
  rw [captureW_eq, if_neg h, ok_bind]
  rfl

/-! ## The message buffer -/

theorem bufferAdd_eq_drop (buf : List StdString) (entry : StdString)
    (h : buf.length ≤ MAX_BUFFER_SIZE) :
    bufferAdd buf entry = (buf ++ [entry]).drop ((buf ++ [entry]).length - MAX_BUFFER_SIZE) := by
  unfold bufferAdd
  by_cases hfull : buf.length ≥ MAX_BUFFER_SIZE
  · have hlen : buf.length = MAX_BUFFER_SIZE := le_antisymm h hfull
    have h1 : (buf ++ [entry]).length - MAX_BUFFER_SIZE = 1 := by
      rw [List.length_append, hlen]; simp
    rw [if_pos hfull, h1]
    cases buf with
    | nil => simp [MAX_BUFFER_SIZE] at hlen
    | cons b bs => rfl
  · have h1 : (buf ++ [entry]).length - MAX_BUFFER_SIZE = 0 := by
      rw [List.length_append]; simp; omega
    rw [if_neg hfull, h1, List.drop_zero]

theorem feedA_append (env : Env) (ps : List CString) (p : CString) (s : State) :
    feedA env (ps ++ [p]) s
      = feedA env ps s >>= fun st => HookedOutputDebugStringA env p st := by
  unfold feedA
  rw [List.foldlM_append]
  congr 1
  funext init
  rw [List.foldlM_cons]
  cases HookedOutputDebugStringA env p init <;> rfl

theorem feedA_buffer (env : Env) (ps : List CString) (s : State)
    (hcap : s.config.captureOutputDebugString = true)
    (hoff : s.config.filterMessages = false)
    (hempty : s.messageBuffer = [])
    (hfit : fileSink s = true → ∀ p ∈ ps, p.length + 8 < LOG_BUFFER_SIZE) :
    ∃ s', feedA env ps s = .ok s'
      ∧ s'.messageBuffer = ps.drop (ps.length - MAX_BUFFER_SIZE)
      ∧ s'.config = s.config ∧ fileSink s' = fileSink s := by
  induction ps using List.reverseRecOn with
  | nil => exact ⟨s, rfl, by simpa using hempty, rfl, rfl⟩
  | append_singleton ps p ih =>
    obtain ⟨s1, h1, hb1, hc1, hs1⟩ :=
      ih (fun h q hq => hfit h q (List.mem_append_left _ hq))
    obtain ⟨s2, h2, hb2, _, hc2, hs2⟩ := HookedA_retained env p s1
      (by rw [hc1]; exact hcap)
      (fun hf => by rw [hc1, hoff] at hf; exact absurd hf (by decide))
      (fun h => hfit (hs1 ▸ h) p (List.mem_append_right _ (List.mem_singleton_self p)))
    refine ⟨s2, ?_, ?_, hc2.trans hc1, hs2.trans hs1⟩
    · rw [feedA_append, h1, ok_bind]
      exact h2
    · rw [hb2, hb1]
      have hlen : (ps.drop (ps.length - MAX_BUFFER_SIZE)).length ≤ MAX_BUFFER_SIZE := by
        rw [List.length_drop]; omega
      rw [bufferAdd_eq_drop _ _ hlen, List.length_append, List.length_drop,
        List.length_append, List.length_singleton]
      by_cases hn : ps.length ≤ MAX_BUFFER_SIZE
      · have e1 : ps.length - MAX_BUFFER_SIZE = 0 := by omega
        have e2 : ps.length - 0 + 1 - MAX_BUFFER_SIZE = ps.length + 1 - MAX_BUFFER_SIZE := by
          omega
        rw [e1, List.drop_zero, e2]
      · have hle : ps.length - MAX_BUFFER_SIZE ≤ ps.length := by omega
        have e2 : ps.length - MAX_BUFFER_SIZE
            + (ps.length - (ps.length - MAX_BUFFER_SIZE) + 1 - MAX_BUFFER_SIZE)
            = ps.length + 1 - MAX_BUFFER_SIZE := by omega
        rw [← List.drop_append_of_le_length hle, List.drop_drop, e2]

/-- Claim C3, as the code has it (buffer bound, FIFO eviction, for payloads
whose log line fits). With capture enabled and filtering off, starting from
an empty `messageBuffer`, and provided that - when a `WriteLog` call reaches
the log file - every payload is at most 4087 characters long, so that its
line `[DEBUG] ` + payload fits the 4096-byte buffer of line 97: every call
of the sequence returns, the buffer afterwards is exactly the last
`min ps.length MAX_BUFFER_SIZE` payloads in arrival order, with
`MAX_BUFFER_SIZE = 1000`, and after each call of the sequence the buffer
holds at most `MAX_BUFFER_SIZE` entries. -/
theorem messageBuffer_fifo (env : Env) (ps : List CString) (s : State)
    (hcap : s.config.captureOutputDebugString = true)
    (hoff : s.config.filterMessages = false)
    (hempty : s.messageBuffer = [])
    (hfit : fileSink s = true → ∀ p ∈ ps, p.length + 8 < LOG_BUFFER_SIZE) :
    MAX_BUFFER_SIZE = 1000 ∧ LOG_BUFFER_SIZE = 4096 ∧
    (∃ s', feedA env ps s = .ok s'
      ∧ s'.messageBuffer = ps.drop (ps.length - min ps.length MAX_BUFFER_SIZE)) ∧
    ∀ k, ∃ sk, feedA env (ps.take k) s = .ok sk
      ∧ sk.messageBuffer.length ≤ MAX_BUFFER_SIZE := by
  refine ⟨rfl, rfl, ?_, ?_⟩
  · obtain ⟨s', h1, hb, _, _⟩ := feedA_buffer env ps s hcap hoff hempty hfit
    have e : ps.length - min ps.length MAX_BUFFER_SIZE = ps.length - MAX_BUFFER_SIZE := by
      omega
    exact ⟨s', h1, by rw [hb, e]⟩
  · intro k
    obtain ⟨sk, h1, hb, _, _⟩ := feedA_buffer env (ps.take k) s hcap hoff hempty
      (fun h p hp => hfit h p (List.mem_of_mem_take hp))
    refine ⟨sk, h1, ?_⟩
    rw [hb, List.length_drop]
    omega

/-- Instance of the amended C3: two short payloads into the empty buffer of
`State.logging`, where the log file is open. -/
theorem messageBuffer_fifo_witness :
    ∃ s', feedA Env.sample ["a".toList, "b".toList] State.logging = .ok s'
      ∧ s'.messageBuffer = ["a".toList, "b".toList] :=
  (messageBuffer_fifo Env.sample ["a".toList, "b".toList] State.logging rfl rfl rfl
    (fun _ p hp => by
      have h : p.length ≤ 1 := by
        simp only [List.mem_cons, List.mem_singleton, List.not_mem_nil, or_false] at hp
        rcases hp with h | h <;> rw [h] <;> decide
      unfold LOG_BUFFER_SIZE
      omega)).2.2.1

/-- Counterexample to C3 as stated: capture is enabled, filtering is off, the
buffer is empty and the log file is open, as after a default start-up. One
payload of 4088 characters is passed to `HookedOutputDebugStringA`. Its log
line does not fit the buffer of line 97: the process ends in `WriteLog`, and
the payload never reaches `messageBuffer`. -/
theorem long_payload_not_buffered :
    State.logging.config.captureOutputDebugString = true
    ∧ State.logging.config.filterMessages = false
    ∧ State.logging.messageBuffer = []
    ∧ longPayload.length = 4088
    ∧ feedA Env.sample [longPayload] State.logging = .error Fault.invalidParameter := by
  have hlen : longPayload.length = 4088 := by
    unfold longPayload
    rw [List.length_replicate]
  refine ⟨rfl, rfl, rfl, hlen, ?_⟩
  unfold feedA
  rw [List.foldlM_cons,
    HookedA_fault Env.sample longPayload State.logging rfl
      (fun h => absurd h (by decide)) (by decide) (by rw [hlen]; decide), error_bind]

theorem longHudPayload_length : longHudPayload.length = 4088 := by
  unfold longHudPayload
  rw [List.length_append, List.length_replicate]
  rfl

/-- Claim C4, as the code has it (filter correctness, for payloads whose
log line fits). With capture enabled, `filterMessages` true and a non-empty
`filterPattern`, a call of `HookedOutputDebugStringA` with payload `p`:
when `p` contains the pattern as a contiguous substring and its log line fits
the 4096-byte buffer of `WriteLog` (or no `WriteLog` call reaches the log
file), returns with `p` pushed at the back of `messageBuffer` (the update
`bufferAdd` of lines 158-161); when `p` contains the pattern, the log file is
reached and the line does not fit, ends the process before `p` is pushed;
when `p` does not contain the pattern, returns and leaves `messageBuffer`
as it was. The same holds for `HookedOutputDebugStringW` with the converted
text `strTo` in the place of `p` and the line `[DEBUG-W] ` + text. -/
theorem filter_correctness (env : Env) (p : CString) (w : WString) (s : State)
    (hcap : s.config.captureOutputDebugString = true)
    (hfil : s.config.filterMessages = true)
    (hpat : s.config.filterPattern ≠ []) :
    (s.config.filterPattern <:+: p →
      (fileSink s = true → p.length + 8 < LOG_BUFFER_SIZE) →
      ∃ s', HookedOutputDebugStringA env p s = .ok s'
        ∧ s'.messageBuffer = bufferAdd s.messageBuffer p) ∧
    (s.config.filterPattern <:+: p →
      fileSink s = true → LOG_BUFFER_SIZE ≤ p.length + 8 →
      HookedOutputDebugStringA env p s = .error Fault.invalidParameter) ∧
    (¬ s.config.filterPattern <:+: p →
      ∃ s', HookedOutputDebugStringA env p s = .ok s'
        ∧ s'.messageBuffer = s.messageBuffer) ∧
    (s.config.filterPattern <:+: strTo env w →
      (fileSink s = true → (c_str (strTo env w)).length + 10 < LOG_BUFFER_SIZE) →
      ∃ s', HookedOutputDebugStringW env w s = .ok s'
        ∧ s'.messageBuffer = bufferAdd s.messageBuffer (strTo env w)) ∧
    (s.config.filterPattern <:+: strTo env w →
      fileSink s = true → LOG_BUFFER_SIZE ≤ (c_str (strTo env w)).length + 10 →
      HookedOutputDebugStringW env w s = .error Fault.invalidParameter) ∧
    (¬ s.config.filterPattern <:+: strTo env w →
      ∃ s', HookedOutputDebugStringW env w s = .ok s'
        ∧ s'.messageBuffer = s.messageBuffer) := by
  refine ⟨?_, ?_, ?_, ?_, ?_, ?_⟩
  · intro hin hfit
    obtain ⟨s', h1, hb, _⟩ := HookedA_retained env p s hcap (fun _ _ => hin) hfit
    exact ⟨s', h1, hb⟩
  · intro hin hs hl
    exact HookedA_fault env p s hcap (fun _ _ => hin) hs hl
  · intro hin
    refine ⟨forwardA p s, HookedA_skipped env p s (fun h => hin (h.2 hfil hpat)), ?_⟩
    exact (forwardA_core p s s rfl).2.1
  · intro hin hfit
    obtain ⟨s', h1, hb, _⟩ := HookedW_retained env w s hcap (fun _ _ => hin) hfit
    exact ⟨s', h1, hb⟩
  · intro hin hs hl
    exact HookedW_fault env w s hcap (fun _ _ => hin) hs hl
  · intro hin
    refine ⟨forwardW w s, HookedW_skipped env w s (fun h => hin (h.2 hfil hpat)), ?_⟩
    exact (forwardW_core w s s rfl).2

/-- Instance of the amended C4, with the log file open: with the pattern
`HUD`, the payload `HUD: health=100` is retained and the payload
`physics tick` is dropped. -/
theorem filter_correctness_witness :
    (∃ s', HookedOutputDebugStringA Env.sample "HUD: health=100".toList State.hudLogging
        = .ok s' ∧ s'.messageBuffer = ["HUD: health=100".toList])
    ∧ (∃ s', HookedOutputDebugStringA Env.sample "physics tick".toList State.hudLogging
        = .ok s' ∧ s'.messageBuffer = []) :=
  ⟨(filter_correctness Env.sample "HUD: health=100".toList [] State.hudLogging rfl rfl
      (by decide)).1 ⟨[], ": health=100".toList, rfl⟩ (fun _ => by decide),
   (filter_correctness Env.sample "physics tick".toList [] State.hudLogging rfl rfl
      (by decide)).2.2.1 (by decide)⟩

/-- Counterexample to C4 as stated: capture is enabled, `filterMessages` is
true, the pattern is `HUD` and the log file is open. The payload, `HUD`
followed by 4085 times `x`, contains the pattern, yet it is not appended to
`messageBuffer`: its log line does not fit the buffer of line 97 and the
process ends in `WriteLog`. -/
theorem long_match_not_appended :
    State.hudLogging.config.captureOutputDebugString = true
    ∧ State.hudLogging.config.filterMessages = true
    ∧ State.hudLogging.config.filterPattern = "HUD".toList
    ∧ State.hudLogging.config.filterPattern <:+: longHudPayload
    ∧ HookedOutputDebugStringA Env.sample longHudPayload State.hudLogging
        = .error Fault.invalidParameter := by
  have hin : State.hudLogging.config.filterPattern <:+: longHudPayload :=
    ⟨[], List.replicate 4085 'x', rfl⟩
  refine ⟨rfl, rfl, rfl, hin, ?_⟩
  exact HookedA_fault Env.sample longHudPayload State.hudLogging rfl (fun _ _ => hin)
    (by decide) (by rw [longHudPayload_length]; decide)

/-- Claim C5, as the code has it (filtering never gates forwarding; a log
line that does not fit does). For both observers and for every payload,
whatever the configuration, the logging flag and the buffer hold: if the saved
original address is not NULL, and if the payload's log line fits the
4096-byte buffer of `WriteLog` in case the payload is captured (capture
enabled, filter passed) while `WriteLog` reaches the log file, then the call
returns and adds exactly one event to the trace, the call of the saved
address with the payload it was given. A payload the filter drops is not
logged, so it is forwarded whatever its length. -/
theorem forwarding_not_gated (env : Env) (p : CString) (w : WString) (s : State) :
    (s.OriginalOutputDebugStringA ≠ 0 →
      (fileSink s = true → s.config.captureOutputDebugString = true →
        (s.config.filterMessages = true → s.config.filterPattern ≠ [] →
          s.config.filterPattern <:+: p) →
        p.length + 8 < LOG_BUFFER_SIZE) →
      ∃ s', HookedOutputDebugStringA env p s = .ok s'
        ∧ s'.trace = s.trace ++ [Event.debugStringA s.OriginalOutputDebugStringA p]) ∧
    (s.OriginalOutputDebugStringW ≠ 0 →
      (fileSink s = true → s.config.captureOutputDebugString = true →
        (s.config.filterMessages = true → s.config.filterPattern ≠ [] →
          s.config.filterPattern <:+: strTo env w) →
        (c_str (strTo env w)).length + 10 < LOG_BUFFER_SIZE) →
      ∃ s', HookedOutputDebugStringW env w s = .ok s'
        ∧ s'.trace = s.trace ++ [Event.debugStringW s.OriginalOutputDebugStringW w]) := by
  constructor
  · intro h0 hfit
    by_cases hc : s.config.captureOutputDebugString = true
        ∧ (s.config.filterMessages = true → s.config.filterPattern ≠ [] →
            s.config.filterPattern <:+: p)
    · obtain ⟨s', h1, _, ht, _⟩ := HookedA_retained env p s hc.1 hc.2
        (fun hs => hfit hs hc.1 hc.2)
      exact ⟨s', h1, ht.trans (forwardA_trace p s h0)⟩
    · exact ⟨forwardA p s, HookedA_skipped env p s hc, forwardA_trace p s h0⟩
  · intro h0 hfit
    by_cases hc : s.config.captureOutputDebugString = true
        ∧ (s.config.filterMessages = true → s.config.filterPattern ≠ [] →
            s.config.filterPattern <:+: strTo env w)
    · obtain ⟨s', h1, _, ht⟩ := HookedW_retained env w s hc.1 hc.2
        (fun hs => hfit hs hc.1 hc.2)
      exact ⟨s', h1, ht.trans (forwardW_trace w s h0)⟩
    · exact ⟨forwardW w s, HookedW_skipped env w s hc, forwardW_trace w s h0⟩

/-- Instance of the amended C5, with the log file open and the filter set to
`HUD`: the payload `physics tick` is dropped by the filter and forwarded all
the same, in both encodings. -/
theorem forwarding_not_gated_witness :
    (∃ s', HookedOutputDebugStringA Env.sample "physics tick".toList State.hudLogging
        = .ok s' ∧ s'.trace = [Event.debugStringA 0x7100 "physics tick".toList])
    ∧ (∃ s', HookedOutputDebugStringW Env.sample [112, 104, 121] State.hudLogging = .ok s'
        ∧ s'.trace = [Event.debugStringW 0x7200 [112, 104, 121]]) :=
  ⟨(forwarding_not_gated Env.sample "physics tick".toList [112, 104, 121]
      State.hudLogging).1 (by decide) (fun _ _ _ => by decide),
   (forwarding_not_gated Env.sample "physics tick".toList [112, 104, 121]
      State.hudLogging).2 (by decide) (fun _ _ _ => by decide)⟩

/-- Counterexample to C5 as stated: the saved address of `OutputDebugStringA`
is not NULL, capture is enabled without a filter and the log file is open. A
payload of 4088 characters is not forwarded: the process ends in `WriteLog`
(line 98), before the call of line 167. -/
theorem long_payload_not_forwarded :
    State.logging.OriginalOutputDebugStringA = 0x7100
    ∧ fileSink State.logging = true
    ∧ longPayload.length = 4088
    ∧ HookedOutputDebugStringA Env.sample longPayload State.logging
        = .error Fault.invalidParameter := by
  have hlen : longPayload.length = 4088 := by
    unfold longPayload
    rw [List.length_replicate]
  exact ⟨rfl, by decide, hlen,
    HookedA_fault Env.sample longPayload State.logging rfl
      (fun h => absurd h (by decide)) (by decide) (by rw [hlen]; decide)⟩

/-! ## Conversion failure -/

/-- The size query that opens `HookedOutputDebugStringW` is the environment's
`wideSize`. -/
theorem size_query (env : Env) (w : WString) :
    (WideCharToMultiByte env w [] 0).1 = env.wideSize w := by
  unfold WideCharToMultiByte
  rw [if_pos rfl]

theorem strTo_of_size_zero (env : Env) (w : WString)
    (h0 : (WideCharToMultiByte env w [] 0).1 = 0) : strTo env w = [] := by
  unfold strTo
  dsimp only
  rw [h0]
  unfold WideCharToMultiByte
  rw [if_pos rfl]
  rfl

/-- Claim C8, as the code has it (conversion failure yields the empty
payload). If the size query of `HookedOutputDebugStringW` yields 0, the
converted text is the empty string and is handled like any other payload; the
call returns, and `messageBuffer` is unchanged when capture is disabled, and
when filtering is on with a non-empty pattern; with capture enabled and no
filter in force the empty string is pushed at the back of the buffer (after
the oldest entry is erased when the buffer is full); in every case the wide
payload is forwarded once, unmodified, when `OriginalOutputDebugStringW` is
not NULL. -/
theorem conversion_failure_empty_payload (env : Env) (w : WString) (s : State)
    (h0 : (WideCharToMultiByte env w [] 0).1 = 0) :
    strTo env w = [] ∧
    ∃ s', HookedOutputDebugStringW env w s = .ok s' ∧
      (s.config.captureOutputDebugString = false → s'.messageBuffer = s.messageBuffer) ∧
      (s.config.filterMessages = true → s.config.filterPattern ≠ [] →
        s'.messageBuffer = s.messageBuffer) ∧
      (s.config.captureOutputDebugString = true →
        (s.config.filterMessages = false ∨ s.config.filterPattern = []) →
        s'.messageBuffer = bufferAdd s.messageBuffer []) ∧
      (s.OriginalOutputDebugStringW ≠ 0 →
        s'.trace = s.trace ++ [Event.debugStringW s.OriginalOutputDebugStringW w]) := by
  have hs := strTo_of_size_zero env w h0
  refine ⟨hs, ?_⟩
  by_cases hc : s.config.captureOutputDebugString = true
      ∧ (s.config.filterMessages = true → s.config.filterPattern ≠ [] →
          s.config.filterPattern <:+: strTo env w)
  · obtain ⟨s', h1, hb, ht⟩ := HookedW_retained env w s hc.1 hc.2
      (fun _ => by rw [hs]; decide)
    refine ⟨s', h1, ?_, ?_, ?_, ?_⟩
    · intro hoff
      rw [hoff] at hc
      exact absurd hc.1 (by decide)
    · intro hfil hpat
      have hin := hc.2 hfil hpat
      rw [hs] at hin
      exact absurd (List.infix_nil.mp hin) hpat
    · intro _ _
      rw [hb, hs]
    · intro hne
      exact ht.trans (forwardW_trace w s hne)
  · refine ⟨forwardW w s, HookedW_skipped env w s hc, ?_, ?_, ?_, ?_⟩
    · intro _
      exact (forwardW_core w s s rfl).2
    · intro _ _
      exact (forwardW_core w s s rfl).2
    · intro hcap hoff
      exfalso
      apply hc
      refine ⟨hcap, fun hfil hpat => ?_⟩
      rcases hoff with h | h
      · rw [h] at hfil; exact absurd hfil (by decide)
      · exact absurd h hpat
    · intro hne
      exact forwardW_trace w s hne

/-- Instance of the amended C8: the conversion fails in `Env.conversionFails`;
with the default configuration the empty string enters the buffer and the wide
payload is forwarded. -/
theorem conversion_failure_empty_payload_witness :
    (WideCharToMultiByte Env.conversionFails [72, 85, 68] [] 0).1 = 0
    ∧ ∃ s', HookedOutputDebugStringW Env.conversionFails [72, 85, 68] State.logging = .ok s'
      ∧ s'.messageBuffer = bufferAdd State.logging.messageBuffer []
      ∧ s'.trace = [Event.debugStringW 0x7200 [72, 85, 68]] :=
  ⟨rfl,
   match (conversion_failure_empty_payload Env.conversionFails [72, 85, 68] State.logging
      rfl).2 with
   | ⟨s', h1, _, _, h3, h4⟩ => ⟨s', h1, h3 rfl (Or.inl rfl), h4 (by decide)⟩⟩

/-- Counterexample to C8 as stated: the size query yields 0, capture is
enabled and no filter is set; the call does not leave `messageBuffer`
unchanged: the buffer was empty and now holds one entry, the empty string. -/
theorem conversion_failure_appends :
    (WideCharToMultiByte Env.conversionFails [72, 85, 68] [] 0).1 = 0
    ∧ State.logging.messageBuffer = []
    ∧ (HookedOutputDebugStringW Env.conversionFails [72, 85, 68] State.logging).map
        (fun s' => s'.messageBuffer) = .ok [[]] := by
  decide

/-! ## Patching -/

theorem VirtualProtect_state (env : Env) (addr : Addr) (size : Nat) (np old : DWORD)
    (s : State) :
    (VirtualProtect env addr size np old s).2.2
      = { s with trace := s.trace ++ [Event.protect addr size np] } := by
  unfold VirtualProtect
  cases env.virtualProtect s.trace addr size np <;> rfl

theorem VirtualProtect_old (env : Env) (addr : Addr) (size : Nat) (np old : DWORD)
    (s : State) :
    (VirtualProtect env addr size np old s).2.1
      = (env.virtualProtect s.trace addr size np).getD old := by
  unfold VirtualProtect
  cases env.virtualProtect s.trace addr size np <;> rfl

theorem patchSlot_lands (env : Env) (pIAT hook : Addr) (s : State)
    (h : env.storeLands (s.trace ++ [Event.protect pIAT env.sizeofFARPROC PAGE_READWRITE])
      pIAT = true) :
    patchSlot env pIAT hook s = .ok
      { s with trace := s.trace ++
          [ Event.protect pIAT env.sizeofFARPROC PAGE_READWRITE,
            Event.store pIAT hook,
            Event.protect pIAT env.sizeofFARPROC
              ((env.virtualProtect s.trace pIAT env.sizeofFARPROC PAGE_READWRITE).getD
                (env.indeterminate s.trace)) ] } := by
  unfold patchSlot
  dsimp only
  rw [VirtualProtect_state, if_pos h, VirtualProtect_state, VirtualProtect_old]
  simp

theorem patchSlot_faults (env : Env) (pIAT hook : Addr) (s : State)
    (h : env.storeLands (s.trace ++ [Event.protect pIAT env.sizeofFARPROC PAGE_READWRITE])
      pIAT = false) :
    patchSlot env pIAT hook s = .error (Fault.accessViolation pIAT) := by
  unfold patchSlot
  dsimp only
  rw [VirtualProtect_state, if_neg (by rw [h]; decide)]

theorem hookEntry_skip (env : Env) (slot hook : Addr) (text : StdString) (s : State) :
    hookEntry env 0 slot hook text s = .ok s := by
  unfold hookEntry
  rw [if_neg (not_not.mpr rfl)]
  rfl

theorem hookEntry_lands (env : Env) (original slot hook : Addr) (text : StdString)
    (s : State) (h0 : original ≠ 0) (ht : text.length < LOG_BUFFER_SIZE)
    (h : env.storeLands (s.trace ++ [Event.protect slot env.sizeofFARPROC PAGE_READWRITE])
      slot = true) :
    ∃ s', hookEntry env original slot hook text s = .ok s'
      ∧ s'.core = { s.core with trace := s.trace ++
          [ Event.protect slot env.sizeofFARPROC PAGE_READWRITE,
            Event.store slot hook,
            Event.protect slot env.sizeofFARPROC
              ((env.virtualProtect s.trace slot env.sizeofFARPROC PAGE_READWRITE).getD
                (env.indeterminate s.trace)) ] } := by
  obtain ⟨s', h1, hc⟩ := WriteLog_ok env text
    { s with trace := s.trace ++
        [ Event.protect slot env.sizeofFARPROC PAGE_READWRITE,
          Event.store slot hook,
          Event.protect slot env.sizeofFARPROC
            ((env.virtualProtect s.trace slot env.sizeofFARPROC PAGE_READWRITE).getD
              (env.indeterminate s.trace)) ] } (fun _ => ht)
  refine ⟨s', ?_, hc.trans rfl⟩
  unfold hookEntry
  rw [if_pos h0, patchSlot_lands env slot hook s h, ok_bind]
  exact h1

theorem hookEntry_faults (env : Env) (original slot hook : Addr) (text : StdString)
    (s : State) (h0 : original ≠ 0)
    (h : env.storeLands (s.trace ++ [Event.protect slot env.sizeofFARPROC PAGE_READWRITE])
      slot = false) :
    hookEntry env original slot hook text s = .error (Fault.accessViolation slot) := by
  unfold hookEntry
  rw [if_pos h0, patchSlot_faults env slot hook s h, error_bind]

theorem hookedA_text_short : "Hooked OutputDebugStringA\n".toList.length < LOG_BUFFER_SIZE := by
  decide

theorem hookedW_text_short : "Hooked OutputDebugStringW\n".toList.length < LOG_BUFFER_SIZE := by
  decide

/-- `HookDebugFunctions` once kernel32 is found: the block for
`OutputDebugStringA`, then the block for `OutputDebugStringW`. -/
theorem HookDebugFunctions_eq (env : Env) (s : State) (kernel32 slotA slotW : Addr)
    (hk : env.GetModuleHandleA "kernel32.dll".toList = kernel32)
    (hA : env.GetProcAddress kernel32 "OutputDebugStringA".toList = slotA)
    (hW : env.GetProcAddress kernel32 "OutputDebugStringW".toList = slotW)
    (hfound : kernel32 ≠ 0) :
    HookDebugFunctions env s =
      hookEntry env slotA slotA env.addrHookedOutputDebugStringA
          "Hooked OutputDebugStringA\n".toList
          { s with OriginalOutputDebugStringA := slotA, OriginalOutputDebugStringW := slotW }
        >>= fun s2 =>
          hookEntry env s2.OriginalOutputDebugStringW slotW env.addrHookedOutputDebugStringW
            "Hooked OutputDebugStringW\n".toList s2 := by
  unfold HookDebugFunctions
  dsimp only
  rw [hk, hA, hW, if_pos hfound]

/-- Claim C9, as the code has it (a refused protection change is not
survived). When kernel32 is found, `HookDebugFunctions` handles the two
diagnostic entry points one after the other, `OutputDebugStringA` first, and
skips one only when its address does not resolve. The result of the
protection change is never tested and a patch is never aborted: the store of
the observer's address is issued after the request whatever it answered. If
the slot is not writable at that point - as on the code page of kernel32
after a refused change - the store raises an access violation: the slot keeps
its value, `HookDebugFunctions` does not return, and an entry point not yet
handled is not patched. If the stores land, each resolved entry point goes
through the request for write access, the store and the request to put a
protection back, and `HookDebugFunctions` returns. -/
theorem HookDebugFunctions_patches (env : Env) (s : State) (kernel32 slotA slotW : Addr)
    (hk : env.GetModuleHandleA "kernel32.dll".toList = kernel32)
    (hA : env.GetProcAddress kernel32 "OutputDebugStringA".toList = slotA)
    (hW : env.GetProcAddress kernel32 "OutputDebugStringW".toList = slotW)
    (hfound : kernel32 ≠ 0) :
    (slotA ≠ 0 →
      env.storeLands (s.trace ++ [Event.protect slotA env.sizeofFARPROC PAGE_READWRITE])
        slotA = false →
      HookDebugFunctions env s = .error (Fault.accessViolation slotA)) ∧
    ((slotA ≠ 0 → ∀ history, env.storeLands history slotA = true) →
      slotW ≠ 0 → (∀ history, env.storeLands history slotW = false) →
      HookDebugFunctions env s = .error (Fault.accessViolation slotW)) ∧
    ((slotA ≠ 0 → ∀ history, env.storeLands history slotA = true) →
      (slotW ≠ 0 → ∀ history, env.storeLands history slotW = true) →
      ∃ s' oldA oldW,
        HookDebugFunctions env s = .ok s' ∧
        s'.trace =
          s.trace
          ++ (if slotA = 0 then []
              else [ Event.protect slotA env.sizeofFARPROC PAGE_READWRITE,
                     Event.store slotA env.addrHookedOutputDebugStringA,
                     Event.protect slotA env.sizeofFARPROC oldA ])
          ++ (if slotW = 0 then []
              else [ Event.protect slotW env.sizeofFARPROC PAGE_READWRITE,
                     Event.store slotW env.addrHookedOutputDebugStringW,
                     Event.protect slotW env.sizeofFARPROC oldW ])) := by
  rw [HookDebugFunctions_eq env s kernel32 slotA slotW hk hA hW hfound]
  obtain ⟨s1, hs1⟩ : ∃ s1 : State, s1 =
      { s with OriginalOutputDebugStringA := slotA, OriginalOutputDebugStringW := slotW } :=
    ⟨_, rfl⟩
  rw [← hs1]
  have ht1 : s1.trace = s.trace := by rw [hs1]
  have hw1 : s1.OriginalOutputDebugStringW = slotW := by rw [hs1]
  -- the block for `OutputDebugStringA`, when its store lands or it is skipped
  have blockA : (slotA ≠ 0 → ∀ history, env.storeLands history slotA = true) →
      ∃ s2 oldA,
        hookEntry env slotA slotA env.addrHookedOutputDebugStringA
          "Hooked OutputDebugStringA\n".toList s1 = .ok s2
        ∧ s2.OriginalOutputDebugStringW = slotW
        ∧ s2.trace = s.trace
          ++ (if slotA = 0 then []
              else [ Event.protect slotA env.sizeofFARPROC PAGE_READWRITE,
                     Event.store slotA env.addrHookedOutputDebugStringA,
                     Event.protect slotA env.sizeofFARPROC oldA ]) := by
    intro hland
    by_cases ha : slotA = 0
    · refine ⟨s1, 0, ?_, hw1, ?_⟩
      · rw [ha]; exact hookEntry_skip env _ _ _ _
      · rw [if_pos ha, List.append_nil, ht1]
    · obtain ⟨s2, h2, hc⟩ := hookEntry_lands env slotA slotA env.addrHookedOutputDebugStringA
        "Hooked OutputDebugStringA\n".toList s1 ha hookedA_text_short (hland ha _)
      refine ⟨s2, (env.virtualProtect s1.trace slotA env.sizeofFARPROC PAGE_READWRITE).getD
        (env.indeterminate s1.trace), h2, ?_, ?_⟩
      · have h := congrArg State.OriginalOutputDebugStringW hc
        exact h.trans hw1
      · have h := congrArg State.trace hc
        rw [if_neg ha, ← ht1]
        exact h
  refine ⟨?_, ?_, ?_⟩
  · intro ha hfault
    rw [← ht1] at hfault
    rw [hookEntry_faults env slotA slotA _ _ s1 ha hfault, error_bind]
  · intro hland hw hfault
    obtain ⟨s2, oldA, h2, hw2, _⟩ := blockA hland
    rw [h2, ok_bind, hw2, hookEntry_faults env slotW slotW _ _ s2 hw (hfault _)]
  · intro hlandA hlandW
    obtain ⟨s2, oldA, h2, hw2, ht2⟩ := blockA hlandA
    rw [h2, ok_bind, hw2]
    by_cases hw : slotW = 0
    · refine ⟨s2, oldA, 0, ?_, ?_⟩
      · rw [hw]; exact hookEntry_skip env _ _ _ _
      · rw [ht2, if_pos hw, List.append_nil]
    · obtain ⟨s3, h3, hc⟩ := hookEntry_lands env slotW slotW env.addrHookedOutputDebugStringW
        "Hooked OutputDebugStringW\n".toList s2 hw hookedW_text_short (hlandW hw _)
      refine ⟨s3, oldA, (env.virtualProtect s2.trace slotW env.sizeofFARPROC
        PAGE_READWRITE).getD (env.indeterminate s2.trace), h3, ?_⟩
      have h := congrArg State.trace hc
      rw [if_neg hw, ← ht2]
      exact h

/-- Instance of the amended C9 where every protection change is granted and
every store lands: both slots are patched and the function returns. -/
theorem HookDebugFunctions_patches_witness :
    ∃ s' oldA oldW,
      HookDebugFunctions Env.sample State.start = .ok s' ∧
      s'.trace =
        [ Event.protect 0x7100 8 PAGE_READWRITE, Event.store 0x7100 0x1100,
          Event.protect 0x7100 8 oldA,
          Event.protect 0x7200 8 PAGE_READWRITE, Event.store 0x7200 0x1200,
          Event.protect 0x7200 8 oldW ] :=
  match (HookDebugFunctions_patches Env.sample State.start 0x7000 0x7100 0x7200
    rfl (by decide) (by decide) (by decide)).2.2 (fun _ _ => rfl) (fun _ _ => rfl) with
  | ⟨s', oldA, oldW, h, ht⟩ => ⟨s', oldA, oldW, h, ht⟩

/-- Counterexample to C9 as stated: the protection change that should make
the slot of `OutputDebugStringA` writable is refused and the slot sits on a
page that is not writable. The failure does raise a fault, the access
violation of the store of line 287, and `HookDebugFunctions` ends there: the
patch of `OutputDebugStringW`, whose address did resolve, is not attempted. -/
theorem HookDebugFunctions_faults_after_refusal :
    Env.protectRefused.GetProcAddress (Env.protectRefused.GetModuleHandleA "kernel32.dll".toList)
        "OutputDebugStringA".toList = 0x7100
    ∧ Env.protectRefused.GetProcAddress
        (Env.protectRefused.GetModuleHandleA "kernel32.dll".toList)
        "OutputDebugStringW".toList = 0x7200
    ∧ Env.protectRefused.virtualProtect State.start.trace 0x7100
        Env.protectRefused.sizeofFARPROC PAGE_READWRITE = none
    ∧ HookDebugFunctions Env.protectRefused State.start
        = .error (Fault.accessViolation 0x7100) := by
  decide

/-! ## Start-up -/

end XInputLogger
